import Mathlib

/-!
# Stream selection policies

A shallow embedding of `src/net/stream_policy.cpp`: the message classifier
(`IsBlockMsg`, `IsHighPriorityMsg`) and the two stream policies
(`DefaultStreamPolicy`, `BlockPriorityStreamPolicy`) with their three
operations `GetNextMessage`, `ServiceSockets` and `PushMessage`.

Conventions of the embedding.

* A `StreamMap` (`std::map<StreamType, StreamPtr>`) is the list of its
  entries in iteration order. The iteration order of the C++ map is the order
  of the enumerators' values, which the sources do not give, so nothing below
  assumes a particular order; where uniqueness of keys matters it is a
  hypothesis (`StreamMap.UniqueKeys`).
* A `StreamPtr` is `none` for a null handle and `some s` for a handle to a
  stream object whose current state is `s`. A call through the handle
  replaces `s` by the state the stream's operation leaves behind.
* The stream class is external. Its three operations are the fields of
  `Stream`, arbitrary functions of the stream object's state; every theorem
  holds for all of them.
* `size_t` values are natural numbers, reduced modulo `2 ^ 64` where the
  policy itself does arithmetic.
* Every policy operation returns an `Outcome`: the value returned (or the
  fault raised), the stream map after the call, and the list of calls made on
  streams, in order.
-/

namespace StreamPolicy

/-! ## Message classifier -/

namespace NetMsgType

/-- Modelled from the spec: the command identifiers of `NetMsgType` are
declared in `protocol.h`, which is not among the sources; this is the
full-block command. -/
def BLOCK : String := "block"

/-- Modelled from the spec: the compact-block command of `NetMsgType`
(declared in `protocol.h`, not among the sources). -/
def CMPCTBLOCK : String := "cmpctblock"

/-- Modelled from the spec: the block-transactions command of `NetMsgType`
(declared in `protocol.h`, not among the sources). -/
def BLOCKTXN : String := "blocktxn"

/-- Modelled from the spec: the request-for-block-transactions command of
`NetMsgType` (declared in `protocol.h`, not among the sources). -/
def GETBLOCKTXN : String := "getblocktxn"

/-- Modelled from the spec: the keepalive request command of `NetMsgType`
(declared in `protocol.h`, not among the sources). -/
def PING : String := "ping"

/-- Modelled from the spec: the keepalive reply command of `NetMsgType`
(declared in `protocol.h`, not among the sources). -/
def PONG : String := "pong"

end NetMsgType

/-- Classify messages we consider to be block related
(`stream_policy.cpp`, lines 11-17). -/
def IsBlockMsg (cmd : String) : Bool :=
  cmd == NetMsgType.BLOCK ||
  cmd == NetMsgType.CMPCTBLOCK ||
  cmd == NetMsgType.BLOCKTXN ||
  cmd == NetMsgType.GETBLOCKTXN

/-- Classify messages we consider high priority
(`stream_policy.cpp`, lines 20-25). -/
def IsHighPriorityMsg (cmd : String) : Bool :=
  cmd == NetMsgType.PING ||
  cmd == NetMsgType.PONG ||
  IsBlockMsg cmd

/-! ## Data model -/

/-- Modelled from the spec: the enumeration `StreamType` is declared in
`net/stream.h`, which is not among the sources. The code names the
"unspecified" sentinel `UNKNOWN`, the general-purpose identifier `GENERAL`
and the supplementary high-priority identifier `DATA1`; `OTHER n` stands for
any further supplementary identifier. -/
inductive StreamType where
  | UNKNOWN
  | GENERAL
  | DATA1
  | OTHER (n : Nat)
  deriving DecidableEq, Repr

/-- An inbound message (`CNetMessage`): command identifier and payload bytes. -/
structure CNetMessage where
  command : String
  payload : List Nat
  deriving DecidableEq, Repr

/-- An outbound message (`CSerializedNetMsg`): `Command()` and the
serialised payload bytes. -/
structure CSerializedNetMsg where
  Command : String
  data : List Nat
  deriving DecidableEq, Repr

/-- What `Stream::GetNextMessage(msg)` leaves behind: the returned
more-available flag, the output list `msg` and the stream object. -/
structure NextResult (σ : Type) where
  moreMsgs : Bool
  msg : List CNetMessage
  stream : σ

/-- What `Stream::ServiceSocket(..., gotNewMsgs, bytesRecv, bytesSent)`
leaves behind: the three reference arguments and the stream object. -/
structure ServiceResult (σ : Type) where
  gotNewMsgs : Bool
  bytesRecv : Nat
  bytesSent : Nat
  stream : σ

/-- What `Stream::PushMessage(...)` leaves behind: the returned number of
bytes enqueued and the stream object. -/
structure PushResult (σ : Type) where
  bytes : Nat
  stream : σ

/-- Modelled from the spec: the stream class is declared in `net/stream.h`,
which is not among the sources. Its three operations used by the policies
are arbitrary functions of the stream object's state `σ`; `F` is the type of
an `fd_set` and `K` the type of the configuration object, both passed
through unchanged. -/
structure Stream (σ F K : Type) where
  GetNextMessage : σ → List CNetMessage → NextResult σ
  ServiceSocket : σ → F → F → F → K → Bool → Nat → Nat → ServiceResult σ
  PushMessage : σ → List Nat → CSerializedNetMsg → Nat → Nat → PushResult σ

/-- A stream handle (`StreamPtr`, a shared pointer): `none` is the null
handle, `some s` a handle to a stream object in state `s`. -/
abbrev StreamPtr (σ : Type) := Option σ

/-- The stream set (`StreamMap`, a `std::map` from `StreamType` to
`StreamPtr`): its entries in iteration order. -/
abbrev StreamMap (σ : Type) := List (StreamType × StreamPtr σ)

/-- The operations of the stream class a policy can invoke. -/
inductive StreamCall where
  | GetNextMessage
  | ServiceSocket
  | PushMessage
  deriving DecidableEq, Repr

/-- Abnormal termination of a policy operation: a thrown
`std::runtime_error` with its text, or a call through a null handle. -/
inductive Fault where
  | runtime_error (what : String)
  | null_dereference
  deriving DecidableEq, Repr

/-- The effect of one policy operation: the value returned or the fault
raised, the stream map after the call, and the calls made on streams (by
the key of the entry they were made through), in order. -/
structure Outcome (σ α : Type) where
  result : Except Fault α
  streams : StreamMap σ
  calls : List (StreamType × StreamCall)

/-- The modulus of `size_t` arithmetic. -/
def SIZE_MOD : Nat := 2 ^ 64

namespace StreamMap

variable {σ : Type}

/-- The keys of the map, in iteration order. -/
def keys (streams : StreamMap σ) : List StreamType :=
  streams.map Prod.fst

/-- Keys of a `std::map` are unique. -/
def UniqueKeys (streams : StreamMap σ) : Prop :=
  streams.keys.Nodup

/-- `find`: the handle bound to `type`, if the key is present. -/
def find : StreamMap σ → StreamType → Option (StreamPtr σ)
  | [], _ => none
  | (k, p) :: rest, type => if k = type then some p else find rest type

/-- `size()`. -/
def size (streams : StreamMap σ) : Nat :=
  streams.length

/-- `count(type)`: 1 when the key is present, else 0. -/
def count (streams : StreamMap σ) (type : StreamType) : Nat :=
  if (streams.find type).isSome then 1 else 0

/-- `operator[]`: the handle bound to `type`; when the key is absent an
entry with a default-constructed (null) handle is inserted first. Returns
the map after the lookup and the handle. Where the new entry stands in the
iteration order depends on the enumerators' values; it is put last here,
and no theorem depends on its place. -/
def index (streams : StreamMap σ) (type : StreamType) : StreamMap σ × StreamPtr σ :=
  match streams.find type with
  | some p => (streams, p)
  | none => (streams ++ [(type, none)], none)

/-- The map after the stream object behind the entry keyed `type` has
changed to the state of `p`. -/
def store : StreamMap σ → StreamType → StreamPtr σ → StreamMap σ
  | [], _, _ => []
  | (k, p) :: rest, type, q =>
    if k = type then (k, q) :: rest else (k, p) :: store rest type q

/-- The map binds `type` to a (non-null) handle to a stream in state `s`. -/
def Has (streams : StreamMap σ) (type : StreamType) (s : σ) : Prop :=
  streams.find type = some (some s)

/-- The key `type` is absent from the map. -/
def Lacks (streams : StreamMap σ) (type : StreamType) : Prop :=
  streams.find type = none

/-- No entry of the map holds a null handle. -/
def NoNull (streams : StreamMap σ) : Prop :=
  ∀ e ∈ streams, e.2.isSome = true

/-- The map binds `type` to a null handle. -/
def HasNull (streams : StreamMap σ) (type : StreamType) : Prop :=
  (streams.find type).map Option.isSome = some false

/-- The map binds `type` to no stream: the key is absent, or the handle
bound to it is null. -/
def NoStream (streams : StreamMap σ) (type : StreamType) : Prop :=
  (streams.find type).map Option.isSome ≠ some true

instance (streams : StreamMap σ) (type : StreamType) : Decidable (streams.HasNull type) :=
  inferInstanceAs (Decidable ((streams.find type).map Option.isSome = some false))

instance (streams : StreamMap σ) (type : StreamType) : Decidable (streams.NoStream type) :=
  inferInstanceAs (Decidable ((streams.find type).map Option.isSome ≠ some true))

instance (streams : StreamMap σ) : Decidable streams.UniqueKeys :=
  inferInstanceAs (Decidable streams.keys.Nodup)

instance [DecidableEq σ] (streams : StreamMap σ) (type : StreamType) (s : σ) :
    Decidable (streams.Has type s) :=
  inferInstanceAs (Decidable (streams.find type = some (some s)))

instance [DecidableEq σ] (streams : StreamMap σ) (type : StreamType) :
    Decidable (streams.Lacks type) :=
  inferInstanceAs (Decidable (streams.find type = none))

instance (streams : StreamMap σ) : Decidable streams.NoNull :=
  inferInstanceAs (Decidable (∀ e ∈ streams, e.2.isSome = true))

/-- The identifiers of the map, each with whether its handle is null. -/
def shape (streams : StreamMap σ) : List (StreamType × Bool) :=
  streams.map (fun e => (e.1, e.2.isSome))

end StreamMap

/-! ## The DefaultStreamPolicy -/

namespace DefaultStreamPolicy

variable {σ F K : Type}

/-- The policy name (`stream_policy.cpp`, line 29). -/
def POLICY_NAME : String := "Default"

/-- `DefaultStreamPolicy::GetNextMessage` (`stream_policy.cpp`, lines 37-46). -/
def GetNextMessage (S : Stream σ F K) (streams : StreamMap σ)
    (msg : List CNetMessage) : Outcome σ (Bool × List CNetMessage) :=
  if streams.size > 0 then
    match streams.index StreamType.GENERAL with
    | (streams1, none) => ⟨.error .null_dereference, streams1, []⟩
    | (streams1, some s) =>
      let r := S.GetNextMessage s msg
      ⟨.ok (r.moreMsgs, r.msg), streams1.store StreamType.GENERAL (some r.stream),
        [(StreamType.GENERAL, StreamCall.GetNextMessage)]⟩
  else
    ⟨.ok (false, msg), streams, []⟩

/-- `DefaultStreamPolicy::ServiceSockets` (`stream_policy.cpp`, lines 48-57).
The value returned is the three reference arguments after the call. -/
def ServiceSockets (S : Stream σ F K) (streams : StreamMap σ)
    (setRecv setSend setError : F) (config : K)
    (gotNewMsgs : Bool) (bytesRecv bytesSent : Nat) : Outcome σ (Bool × Nat × Nat) :=
  if streams.size > 0 then
    match streams.index StreamType.GENERAL with
    | (streams1, none) => ⟨.error .null_dereference, streams1, []⟩
    | (streams1, some s) =>
      let r := S.ServiceSocket s setRecv setSend setError config gotNewMsgs bytesRecv bytesSent
      ⟨.ok (r.gotNewMsgs, r.bytesRecv, r.bytesSent),
        streams1.store StreamType.GENERAL (some r.stream),
        [(StreamType.GENERAL, StreamCall.ServiceSocket)]⟩
  else
    ⟨.ok (gotNewMsgs, bytesRecv, bytesSent), streams, []⟩

/-- `DefaultStreamPolicy::PushMessage` (`stream_policy.cpp`, lines 59-70). -/
def PushMessage (S : Stream σ F K) (streams : StreamMap σ) (_streamType : StreamType)
    (serialisedHeader : List Nat) (msg : CSerializedNetMsg)
    (nPayloadLength nTotalSize : Nat) : Outcome σ Nat :=
  if streams.size > 0 then
    match streams.index StreamType.GENERAL with
    | (streams1, none) => ⟨.error .null_dereference, streams1, []⟩
    | (streams1, some s) =>
      let r := S.PushMessage s serialisedHeader msg nPayloadLength nTotalSize
      ⟨.ok r.bytes, streams1.store StreamType.GENERAL (some r.stream),
        [(StreamType.GENERAL, StreamCall.PushMessage)]⟩
  else
    ⟨.error (.runtime_error "DefaultStreamPolicy has no stream available for sending"),
      streams, []⟩

end DefaultStreamPolicy

/-! ## The BlockPriorityStreamPolicy -/

namespace BlockPriorityStreamPolicy

variable {σ F K : Type}

/-- The policy name (`stream_policy.cpp`, line 30). -/
def POLICY_NAME : String := "BlockPriority"

/-- Modelled from the spec: `GetPolicyName()` is declared in
`net/stream_policy.h`, which is not among the sources; it returns the
stable identifier of the policy, `POLICY_NAME`. -/
def GetPolicyName : String := POLICY_NAME

/-- One call of `CConnman::QueueNewStream(peerAddr, streamType, assocID,
policyName)` with its four arguments; `A` is the type of a peer address and
`I` the type of an association identifier. -/
structure NewStreamRequest (A I : Type) where
  peerAddr : A
  streamType : StreamType
  assocID : I
  policyName : String

/-- The effect of `SetupStreams`: the texts handed to `LogPrint` under the
category `BCLog::NET`, and the calls made on the connection manager, in
order. -/
structure SetupEffect (A I : Type) where
  logged : List String
  queued : List (NewStreamRequest A I)

/-- `BlockPriorityStreamPolicy::SetupStreams`
(`stream_policy.cpp`, lines 77-82). -/
def SetupStreams {A I : Type} (peerAddr : A) (assocID : I) : SetupEffect A I :=
  ⟨["BlockPriorityStreamPolicy opening required streams\n"],
    [⟨peerAddr, StreamType.DATA1, assocID, GetPolicyName⟩]⟩

/-- The second half of `GetNextMessage` (`stream_policy.cpp`, lines 97-103):
the GENERAL stream, when present. `calls` are the calls already made. -/
def GetNextMessageGeneral (S : Stream σ F K) (streams : StreamMap σ)
    (msg : List CNetMessage) (calls : List (StreamType × StreamCall)) :
    Outcome σ (Bool × List CNetMessage) :=
  if streams.count StreamType.GENERAL = 1 then
    match streams.index StreamType.GENERAL with
    | (streams1, none) => ⟨.error .null_dereference, streams1, calls⟩
    | (streams1, some s) =>
      let r := S.GetNextMessage s msg
      ⟨.ok (r.moreMsgs, r.msg), streams1.store StreamType.GENERAL (some r.stream),
        calls ++ [(StreamType.GENERAL, StreamCall.GetNextMessage)]⟩
  else
    ⟨.ok (false, msg), streams, calls⟩

/-- `BlockPriorityStreamPolicy::GetNextMessage`
(`stream_policy.cpp`, lines 84-104). -/
def GetNextMessage (S : Stream σ F K) (streams : StreamMap σ)
    (msg : List CNetMessage) : Outcome σ (Bool × List CNetMessage) :=
  if streams.count StreamType.DATA1 = 1 then
    match streams.index StreamType.DATA1 with
    | (streams1, none) => ⟨.error .null_dereference, streams1, []⟩
    | (streams1, some s) =>
      let r := S.GetNextMessage s msg
      let streams2 := streams1.store StreamType.DATA1 (some r.stream)
      if r.msg.length > 0 then
        ⟨.ok (r.moreMsgs, r.msg), streams2, [(StreamType.DATA1, StreamCall.GetNextMessage)]⟩
      else
        GetNextMessageGeneral S streams2 r.msg [(StreamType.DATA1, StreamCall.GetNextMessage)]
  else
    GetNextMessageGeneral S streams msg []

/-- The loop of `ServiceSockets` (`stream_policy.cpp`, lines 111-119) over
the entries still to be serviced: each stream is serviced with its own
counters started at zero, which are then added to the caller's. -/
def ServiceEach (S : Stream σ F K) (setRecv setSend setError : F) (config : K) :
    StreamMap σ → Bool → Nat → Nat → Outcome σ (Bool × Nat × Nat)
  | [], gotNewMsgs, bytesRecv, bytesSent =>
    ⟨.ok (gotNewMsgs, bytesRecv, bytesSent), [], []⟩
  | (type, none) :: rest, _, _, _ =>
    ⟨.error .null_dereference, (type, none) :: rest, []⟩
  | (type, some s) :: rest, gotNewMsgs, bytesRecv, bytesSent =>
    let r := S.ServiceSocket s setRecv setSend setError config gotNewMsgs 0 0
    let o := ServiceEach S setRecv setSend setError config rest r.gotNewMsgs
      ((bytesRecv + r.bytesRecv) % SIZE_MOD) ((bytesSent + r.bytesSent) % SIZE_MOD)
    ⟨o.result, (type, some r.stream) :: o.streams, (type, StreamCall.ServiceSocket) :: o.calls⟩

/-- `BlockPriorityStreamPolicy::ServiceSockets`
(`stream_policy.cpp`, lines 106-120). The value returned is the three
reference arguments after the call. -/
def ServiceSockets (S : Stream σ F K) (streams : StreamMap σ)
    (setRecv setSend setError : F) (config : K)
    (gotNewMsgs : Bool) (bytesRecv bytesSent : Nat) : Outcome σ (Bool × Nat × Nat) :=
  ServiceEach S setRecv setSend setError config streams gotNewMsgs bytesRecv bytesSent

/-- The stream type looked for (`stream_policy.cpp`, lines 126-143): the
explicit one, or the preference by message class when none was given. -/
def ResolveType (streamType : StreamType) (msg : CSerializedNetMsg) : StreamType :=
  let exactMatch : Bool := decide (streamType ≠ StreamType.UNKNOWN)
  if !exactMatch then
    if IsHighPriorityMsg msg.Command then StreamType.DATA1 else StreamType.GENERAL
  else
    streamType

/-- The resolution loop (`stream_policy.cpp`, lines 146-160) over the
entries still to be visited. `destStream` is `none` while the local handle
is the initial null handle and `some (type, stream)` once it has been
assigned from the entry keyed `type`. -/
def FindStream (exactMatch : Bool) (streamType : StreamType) :
    StreamMap σ → Option (StreamType × StreamPtr σ) → Option (StreamType × StreamPtr σ)
  | [], destStream => destStream
  | (type, stream) :: rest, destStream =>
    if type = streamType then
      some (type, stream)
    else if !exactMatch && decide (type = StreamType.GENERAL) then
      FindStream exactMatch streamType rest (some (type, stream))
    else
      FindStream exactMatch streamType rest destStream

/-- The text of the error thrown when no stream was found
(`stream_policy.cpp`, lines 165-168); `enum_cast` is the string form of a
stream type, defined outside the sources. -/
def NoStreamText (enum_cast : StreamType → String) (streamType : StreamType)
    (msg : CSerializedNetMsg) : String :=
  "No stream avilable of type " ++ enum_cast streamType ++
    " for message of type " ++ msg.Command

/-- `BlockPriorityStreamPolicy::PushMessage`
(`stream_policy.cpp`, lines 122-172). -/
def PushMessage (enum_cast : StreamType → String) (S : Stream σ F K)
    (streams : StreamMap σ) (streamType : StreamType)
    (serialisedHeader : List Nat) (msg : CSerializedNetMsg)
    (nPayloadLength nTotalSize : Nat) : Outcome σ Nat :=
  let exactMatch : Bool := decide (streamType ≠ StreamType.UNKNOWN)
  let streamType1 := ResolveType streamType msg
  match FindStream exactMatch streamType1 streams none with
  | none => ⟨.error (.runtime_error (NoStreamText enum_cast streamType1 msg)), streams, []⟩
  | some (_, none) =>
    ⟨.error (.runtime_error (NoStreamText enum_cast streamType1 msg)), streams, []⟩
  | some (type, some s) =>
    let r := S.PushMessage s serialisedHeader msg nPayloadLength nTotalSize
    ⟨.ok r.bytes, streams.store type (some r.stream), [(type, StreamCall.PushMessage)]⟩

end BlockPriorityStreamPolicy

/-! ## Auxiliary definitions for the statements -/

/-- What each stream of the map reports when serviced in iteration order:
the result of its own `ServiceSocket`, started with both counters at zero
and with the flag as the stream before it left it. -/
def ServicedResults {σ F K : Type} (S : Stream σ F K) (setRecv setSend setError : F)
    (config : K) : StreamMap σ → Bool → List (ServiceResult σ)
  | [], _ => []
  | (_, none) :: rest, gotNewMsgs =>
    ServicedResults S setRecv setSend setError config rest gotNewMsgs
  | (_, some s) :: rest, gotNewMsgs =>
    S.ServiceSocket s setRecv setSend setError config gotNewMsgs 0 0 ::
      ServicedResults S setRecv setSend setError config rest
        (S.ServiceSocket s setRecv setSend setError config gotNewMsgs 0 0).gotNewMsgs

/-- The send resolution as the spec words it (section 9): a pure function
of the explicit identifier, the message class and the available identifiers,
resolved in the order exact request, classified preference, general-purpose
fallback, failure (`none`). -/
def ResolveSpec (explicit : StreamType) (highPriority : Bool)
    (available : List StreamType) : Option StreamType :=
  if explicit ≠ StreamType.UNKNOWN then
    if explicit ∈ available then some explicit else none
  else if (if highPriority then StreamType.DATA1 else StreamType.GENERAL) ∈ available then
    some (if highPriority then StreamType.DATA1 else StreamType.GENERAL)
  else if StreamType.GENERAL ∈ available then
    some StreamType.GENERAL
  else
    none

/-- The caller calling a next-message operation `n + 1` times in a row,
each call on the stream map and the output list the call before it left
behind: the outcome of the last call, with the calls of all of them. A
fault ends the sequence. -/
def Repeated {σ : Type}
    (op : StreamMap σ → List CNetMessage → Outcome σ (Bool × List CNetMessage)) :
    Nat → StreamMap σ → List CNetMessage → Outcome σ (Bool × List CNetMessage)
  | 0, streams, msg => op streams msg
  | n + 1, streams, msg =>
    match (op streams msg).result with
    | .error f => ⟨.error f, (op streams msg).streams, (op streams msg).calls⟩
    | .ok v =>
      ⟨(Repeated op n (op streams msg).streams v.2).result,
        (Repeated op n (op streams msg).streams v.2).streams,
        (op streams msg).calls ++ (Repeated op n (op streams msg).streams v.2).calls⟩

/-! ## A concrete stream, for evaluating the policies -/

/-- A concrete stream object: the completed inbound messages waiting in its
queue, the bytes one readiness servicing receives and sends, and the
outbound messages enqueued so far. -/
structure QueueStream where
  queue : List CNetMessage
  recv : Nat
  send : Nat
  pushed : List CSerializedNetMsg
  deriving DecidableEq, Repr

/-- The operations of `QueueStream`: receive-next moves the head of the
queue to the output list, servicing adds the stream's byte counts to the
counters and raises the flag when messages wait, sending enqueues the
message and reports its total size. -/
def queueStream : Stream QueueStream Unit Unit where
  GetNextMessage s msg :=
    match s.queue with
    | [] => ⟨false, msg, s⟩
    | m :: rest => ⟨!rest.isEmpty, msg ++ [m], { s with queue := rest }⟩
  ServiceSocket s _ _ _ _ gotNewMsgs bytesRecv bytesSent :=
    ⟨gotNewMsgs || !s.queue.isEmpty, bytesRecv + s.recv, bytesSent + s.send, s⟩
  PushMessage s _ msg _ nTotalSize :=
    ⟨nTotalSize, { s with pushed := s.pushed ++ [msg] }⟩

/-- A string form of the stream types, for evaluating error texts. -/
def streamTypeName : StreamType → String
  | .UNKNOWN => "UNKNOWN"
  | .GENERAL => "GENERAL"
  | .DATA1 => "DATA1"
  | .OTHER _ => "OTHER"

/-- An idle stream that moves `recv` and `send` bytes per servicing. -/
def idle (recv send : Nat) : QueueStream :=
  ⟨[], recv, send, []⟩

/-- A stream with `msgs` waiting in its receive queue. -/
def waiting (msgs : List CNetMessage) : QueueStream :=
  ⟨msgs, 0, 0, []⟩

/-- An inbound transaction message. -/
def txIn : CNetMessage := ⟨"tx", [7]⟩

/-- An inbound block message. -/
def blockIn : CNetMessage := ⟨"block", [8, 9]⟩

/-- A keepalive message (HighPriority). -/
def pingMsg : CSerializedNetMsg := ⟨"ping", []⟩

/-- A transaction message (Normal). -/
def txMsg : CSerializedNetMsg := ⟨"tx", [1, 2, 3]⟩

/-! ## Theorems: the message classifier -/

/-- C1: `IsHighPriorityMsg cmd` holds exactly when `cmd` is one of the six
identifiers block, cmpctblock, blocktxn, getblocktxn, ping, pong, compared
case-sensitively ("PING", "Block" and the empty string are Normal);
`IsBlockMsg cmd` holds exactly for the four block-related identifiers, and
implies `IsHighPriorityMsg cmd`. -/
theorem IsHighPriorityMsg_exact (cmd : String) :
    (IsHighPriorityMsg cmd = true ↔
      cmd ∈ ["block", "cmpctblock", "blocktxn", "getblocktxn", "ping", "pong"]) ∧
    (IsBlockMsg cmd = true ↔
      cmd ∈ ["block", "cmpctblock", "blocktxn", "getblocktxn"]) ∧
    (IsBlockMsg cmd = true → IsHighPriorityMsg cmd = true) ∧
    IsHighPriorityMsg "PING" = false ∧
    IsHighPriorityMsg "Block" = false ∧
    IsHighPriorityMsg "" = false := by
  refine ⟨?_, ?_, ?_, ?_, ?_, ?_⟩
  · simp only [IsHighPriorityMsg, IsBlockMsg, NetMsgType.PING, NetMsgType.PONG,
      NetMsgType.BLOCK, NetMsgType.CMPCTBLOCK, NetMsgType.BLOCKTXN, NetMsgType.GETBLOCKTXN,
      Bool.or_eq_true, beq_iff_eq, List.mem_cons, List.not_mem_nil, or_false]
    tauto
  · simp only [IsBlockMsg, NetMsgType.BLOCK, NetMsgType.CMPCTBLOCK, NetMsgType.BLOCKTXN,
      NetMsgType.GETBLOCKTXN, Bool.or_eq_true, beq_iff_eq, List.mem_cons, List.not_mem_nil,
      or_false]
    tauto
  · intro h
    simp [IsHighPriorityMsg, h]
  · decide
  · decide
  · decide

/-! ## Lemmas: the stream map -/

namespace StreamMap

variable {σ : Type}

theorem find_eq_none_iff (streams : StreamMap σ) (t : StreamType) :
    streams.find t = none ↔ t ∉ streams.keys := by
  induction streams with
  | nil => simp [find, keys]
  | cons e rest ih =>
    obtain ⟨k, p⟩ := e
    by_cases hk : k = t
    · simp [find, keys, hk]
    · have hk2 : ¬ t = k := fun h => hk h.symm
      simpa [find, keys, hk, hk2] using ih

theorem find_store_of_ne (streams : StreamMap σ) (t k : StreamType) (q : StreamPtr σ)
    (h : k ≠ t) : (streams.store t q).find k = streams.find k := by
  induction streams with
  | nil => rfl
  | cons e rest ih =>
    obtain ⟨k1, p⟩ := e
    by_cases h1 : k1 = t
    · subst h1
      have h2 : ¬ k1 = k := fun h3 => h h3.symm
      simp [store, find, h2]
    · by_cases h2 : k1 = k
      · subst h2
        simp [store, find, h1]
      · simp [store, find, h1, h2, ih]

theorem store_of_find_none (streams : StreamMap σ) (t : StreamType) (q : StreamPtr σ)
    (h : streams.find t = none) : streams.store t q = streams := by
  induction streams with
  | nil => rfl
  | cons e rest ih =>
    obtain ⟨k, p⟩ := e
    by_cases hk : k = t
    · simp [find, hk] at h
    · simp only [find, hk, if_false] at h
      simp [store, hk, ih h]

theorem keys_store (streams : StreamMap σ) (t : StreamType) (q : StreamPtr σ) :
    (streams.store t q).keys = streams.keys := by
  induction streams with
  | nil => rfl
  | cons e rest ih =>
    obtain ⟨k, p⟩ := e
    by_cases hk : k = t
    · simp [store, keys, hk]
    · simp only [keys] at ih
      simp [store, keys, hk, ih]

theorem shape_store (streams : StreamMap σ) (t : StreamType) (p q : StreamPtr σ)
    (h : streams.find t = some p) (hq : q.isSome = p.isSome) :
    (streams.store t q).shape = streams.shape := by
  induction streams with
  | nil => rfl
  | cons e rest ih =>
    obtain ⟨k, p1⟩ := e
    by_cases hk : k = t
    · simp only [find, hk, if_true, Option.some.injEq] at h
      simp [store, shape, hk, h, hq]
    · simp only [find, hk, if_false] at h
      simp only [shape] at ih
      simp [store, shape, hk, ih h]

theorem index_of_find (streams : StreamMap σ) (t : StreamType) (p : StreamPtr σ)
    (h : streams.find t = some p) : streams.index t = (streams, p) := by
  simp [index, h]

theorem count_of_find (streams : StreamMap σ) (t : StreamType) (p : StreamPtr σ)
    (h : streams.find t = some p) : streams.count t = 1 := by
  simp [count, h]

theorem count_of_find_none (streams : StreamMap σ) (t : StreamType)
    (h : streams.find t = none) : streams.count t = 0 := by
  simp [count, h]

theorem size_pos_of_find (streams : StreamMap σ) (t : StreamType) (p : StreamPtr σ)
    (h : streams.find t = some p) : streams.size > 0 := by
  cases streams with
  | nil => simp [find] at h
  | cons e rest => simp [size]

end StreamMap

/-! ## Lemmas: the resolution loop -/

namespace BlockPriorityStreamPolicy

variable {σ F K : Type}

theorem FindStream_of_find (exactMatch : Bool) (t : StreamType) (streams : StreamMap σ)
    (p : StreamPtr σ) (d : Option (StreamType × StreamPtr σ))
    (h : streams.find t = some p) :
    FindStream exactMatch t streams d = some (t, p) := by
  induction streams generalizing d with
  | nil => simp [StreamMap.find] at h
  | cons e rest ih =>
    obtain ⟨k, q⟩ := e
    by_cases hk : k = t
    · simp only [StreamMap.find, hk, if_true, Option.some.injEq] at h
      simp [FindStream, hk, h]
    · simp only [StreamMap.find, hk, if_false] at h
      simp only [FindStream, hk, if_false]
      split
      · exact ih _ h
      · exact ih _ h

theorem FindStream_exact_absent (t : StreamType) (streams : StreamMap σ)
    (d : Option (StreamType × StreamPtr σ)) (h : streams.find t = none) :
    FindStream true t streams d = d := by
  induction streams generalizing d with
  | nil => rfl
  | cons e rest ih =>
    obtain ⟨k, q⟩ := e
    by_cases hk : k = t
    · simp [StreamMap.find, hk] at h
    · simp only [StreamMap.find, hk, if_false] at h
      simp [FindStream, hk, ih _ h]

theorem FindStream_no_fallback (t : StreamType) (streams : StreamMap σ)
    (d : Option (StreamType × StreamPtr σ)) (h : streams.find t = none)
    (hg : streams.find StreamType.GENERAL = none) :
    FindStream false t streams d = d := by
  induction streams generalizing d with
  | nil => rfl
  | cons e rest ih =>
    obtain ⟨k, q⟩ := e
    by_cases hk : k = t
    · simp [StreamMap.find, hk] at h
    · by_cases hk2 : k = StreamType.GENERAL
      · simp [StreamMap.find, hk2] at hg
      · simp only [StreamMap.find, hk, if_false] at h
        simp only [StreamMap.find, hk2, if_false] at hg
        simp [FindStream, hk, hk2, ih _ h hg]

theorem FindStream_fallback (t : StreamType) (streams : StreamMap σ) (p : StreamPtr σ)
    (d : Option (StreamType × StreamPtr σ)) (hu : streams.UniqueKeys)
    (h : streams.find t = none) (hg : streams.find StreamType.GENERAL = some p) :
    FindStream false t streams d = some (StreamType.GENERAL, p) := by
  induction streams generalizing d with
  | nil => simp [StreamMap.find] at hg
  | cons e rest ih =>
    obtain ⟨k, q⟩ := e
    have hu2 : k ∉ StreamMap.keys rest ∧ StreamMap.UniqueKeys rest := by
      simpa [StreamMap.UniqueKeys, StreamMap.keys] using hu
    by_cases hk : k = t
    · simp [StreamMap.find, hk] at h
    · simp only [StreamMap.find, hk, if_false] at h
      by_cases hk2 : k = StreamType.GENERAL
      · simp only [StreamMap.find, hk2, if_true, Option.some.injEq] at hg
        have hnone : StreamMap.find rest StreamType.GENERAL = none :=
          (StreamMap.find_eq_none_iff rest _).2 (hk2 ▸ hu2.1)
        subst hk2
        simp only [FindStream, hk, if_false]
        simp [FindStream_no_fallback t rest _ h hnone, hg]
      · simp only [StreamMap.find, hk2, if_false] at hg
        simp only [FindStream, hk, if_false]
        simp [hk2, ih _ hu2.2 h hg]

theorem ResolveType_explicit (t : StreamType) (msg : CSerializedNetMsg)
    (h : t ≠ StreamType.UNKNOWN) : ResolveType t msg = t := by
  simp [ResolveType, h]

theorem ResolveType_unknown (msg : CSerializedNetMsg) :
    ResolveType StreamType.UNKNOWN msg =
      if IsHighPriorityMsg msg.Command then StreamType.DATA1 else StreamType.GENERAL := by
  simp [ResolveType]

end BlockPriorityStreamPolicy

/-! ## Theorems: sending with the BlockPriorityStreamPolicy -/

namespace BlockPriorityStreamPolicy

variable {σ F K : Type}

/-- C3: an explicit stream identifier overrides classification. For every
message (HighPriority or Normal), every explicit identifier `t` other than
`UNKNOWN` and every stream set that contains `t`, `PushMessage` sends the
message on the stream keyed `t` and on no other stream, and returns that
stream's bytes enqueued. -/
theorem PushMessage_explicit_overrides (enum_cast : StreamType → String)
    (S : Stream σ F K) (streams : StreamMap σ) (t : StreamType) (s : σ)
    (serialisedHeader : List Nat) (msg : CSerializedNetMsg)
    (nPayloadLength nTotalSize : Nat)
    (ht : t ≠ StreamType.UNKNOWN) (hs : streams.Has t s) :
    PushMessage enum_cast S streams t serialisedHeader msg nPayloadLength nTotalSize =
        ⟨.ok (S.PushMessage s serialisedHeader msg nPayloadLength nTotalSize).bytes,
          streams.store t
            (some (S.PushMessage s serialisedHeader msg nPayloadLength nTotalSize).stream),
          [(t, StreamCall.PushMessage)]⟩ ∧
    ∀ k, k ≠ t →
      (PushMessage enum_cast S streams t serialisedHeader msg
        nPayloadLength nTotalSize).streams.find k = streams.find k := by
  have hf := FindStream_of_find true t streams (some s) none hs
  have he : PushMessage enum_cast S streams t serialisedHeader msg nPayloadLength nTotalSize =
        ⟨.ok (S.PushMessage s serialisedHeader msg nPayloadLength nTotalSize).bytes,
          streams.store t
            (some (S.PushMessage s serialisedHeader msg nPayloadLength nTotalSize).stream),
          [(t, StreamCall.PushMessage)]⟩ := by
    simp [PushMessage, ResolveType_explicit t msg ht, ht, hf]
  refine ⟨he, ?_⟩
  intro k hk
  rw [he]
  exact StreamMap.find_store_of_ne streams _ k _ hk

/-- Witness of C3: on {GENERAL, DATA1} a Normal message with explicit DATA1
is sent on DATA1, and a HighPriority message with explicit GENERAL is sent
on GENERAL. -/
theorem PushMessage_explicit_overrides_witness :
    (IsHighPriorityMsg txMsg.Command = false ∧
      PushMessage streamTypeName queueStream
        [(StreamType.GENERAL, some (idle 0 0)), (StreamType.DATA1, some (idle 0 0))]
        StreamType.DATA1 [] txMsg 3 27 =
      ⟨.ok 27,
        [(StreamType.GENERAL, some (idle 0 0)), (StreamType.DATA1, some ⟨[], 0, 0, [txMsg]⟩)],
        [(StreamType.DATA1, StreamCall.PushMessage)]⟩) ∧
    (IsHighPriorityMsg pingMsg.Command = true ∧
      PushMessage streamTypeName queueStream
        [(StreamType.GENERAL, some (idle 0 0)), (StreamType.DATA1, some (idle 0 0))]
        StreamType.GENERAL [] pingMsg 0 24 =
      ⟨.ok 24,
        [(StreamType.GENERAL, some ⟨[], 0, 0, [pingMsg]⟩), (StreamType.DATA1, some (idle 0 0))],
        [(StreamType.GENERAL, StreamCall.PushMessage)]⟩) :=
  ⟨⟨by decide, (PushMessage_explicit_overrides streamTypeName queueStream
      [(StreamType.GENERAL, some (idle 0 0)), (StreamType.DATA1, some (idle 0 0))]
      StreamType.DATA1 (idle 0 0) [] txMsg 3 27 (by decide) (by decide)).1⟩,
   ⟨by decide, (PushMessage_explicit_overrides streamTypeName queueStream
      [(StreamType.GENERAL, some (idle 0 0)), (StreamType.DATA1, some (idle 0 0))]
      StreamType.GENERAL (idle 0 0) [] pingMsg 0 24 (by decide) (by decide)).1⟩⟩

/-- C4: `PushMessage` fails with a thrown `runtime_error` on the empty
stream set, and whenever an explicit identifier other than `UNKNOWN` is
requested that is absent from the stream set, whether or not GENERAL is
present. Every failing call throws a `runtime_error`, invokes no stream
operation and leaves the stream map as it was. -/
theorem PushMessage_no_stream_available (enum_cast : StreamType → String)
    (S : Stream σ F K) (streams : StreamMap σ) (t : StreamType)
    (serialisedHeader : List Nat) (msg : CSerializedNetMsg)
    (nPayloadLength nTotalSize : Nat) :
    PushMessage enum_cast S [] t serialisedHeader msg nPayloadLength nTotalSize =
        ⟨.error (.runtime_error (NoStreamText enum_cast (ResolveType t msg) msg)), [], []⟩ ∧
    (t ≠ StreamType.UNKNOWN → streams.Lacks t →
      PushMessage enum_cast S streams t serialisedHeader msg nPayloadLength nTotalSize =
        ⟨.error (.runtime_error (NoStreamText enum_cast t msg)), streams, []⟩) ∧
    (∀ f, (PushMessage enum_cast S streams t serialisedHeader msg
          nPayloadLength nTotalSize).result = .error f →
      f = .runtime_error (NoStreamText enum_cast (ResolveType t msg) msg) ∧
      (PushMessage enum_cast S streams t serialisedHeader msg
          nPayloadLength nTotalSize).calls = [] ∧
      (PushMessage enum_cast S streams t serialisedHeader msg
          nPayloadLength nTotalSize).streams = streams) := by
  refine ⟨?_, ?_, ?_⟩
  · simp [PushMessage, FindStream]
  · intro ht hl
    have hf := FindStream_exact_absent t streams none hl
    simp [PushMessage, ResolveType_explicit t msg ht, ht, hf]
  · intro f hf
    unfold PushMessage at hf ⊢
    simp only at hf ⊢
    split at hf
    · rename_i h1
      simp only [Except.error.injEq] at hf
      simp [h1, hf]
    · rename_i h1
      simp only [Except.error.injEq] at hf
      simp [h1, hf]
    · simp at hf

/-- Witness of C4: a Normal message explicitly requested on DATA1 fails on
the stream set {GENERAL}, although the GENERAL stream is present, and no
stream operation is invoked. -/
theorem PushMessage_no_stream_available_witness :
    StreamType.DATA1 ≠ StreamType.UNKNOWN ∧
    StreamMap.Lacks [(StreamType.GENERAL, some (idle 0 0))] StreamType.DATA1 ∧
    PushMessage streamTypeName queueStream [(StreamType.GENERAL, some (idle 0 0))]
        StreamType.DATA1 [] txMsg 3 27 =
      ⟨.error (.runtime_error "No stream avilable of type DATA1 for message of type tx"),
        [(StreamType.GENERAL, some (idle 0 0))], []⟩ ∧
    (PushMessage streamTypeName queueStream [(StreamType.GENERAL, some (idle 0 0))]
        StreamType.DATA1 [] txMsg 3 27).calls = [] :=
  ⟨by decide, by decide,
    (PushMessage_no_stream_available streamTypeName queueStream
      [(StreamType.GENERAL, some (idle 0 0))] StreamType.DATA1 [] txMsg 3 27).2.1
      (by decide) (by decide),
    ((PushMessage_no_stream_available streamTypeName queueStream
      [(StreamType.GENERAL, some (idle 0 0))] StreamType.DATA1 [] txMsg 3 27).2.2 _
      (by rfl)).2.1⟩

end BlockPriorityStreamPolicy

/-! ## Theorems: sending with the DefaultStreamPolicy -/

namespace DefaultStreamPolicy

variable {σ F K : Type}

/-- C5, as stated, fails: on the non-empty stream set {DATA1}, which lacks
the GENERAL stream, `DefaultStreamPolicy::PushMessage` does not delegate to
a GENERAL stream: `streams[GENERAL]` yields a null handle, the call through
it faults, and no send is invoked. -/
theorem Default_PushMessage_without_general :
    StreamMap.size [(StreamType.DATA1, some (idle 0 0))] > 0 ∧
    (PushMessage queueStream [(StreamType.DATA1, some (idle 0 0))]
        StreamType.UNKNOWN [] txMsg 3 27).result = .error .null_dereference ∧
    (PushMessage queueStream [(StreamType.DATA1, some (idle 0 0))]
        StreamType.UNKNOWN [] txMsg 3 27).calls = [] :=
  ⟨by decide, rfl, rfl⟩

/-- C5, amended: on the empty stream set `DefaultStreamPolicy::PushMessage`
fails with a thrown `runtime_error` and invokes no send; on every stream set
that contains the GENERAL stream it delegates the send to that stream and
returns its bytes enqueued, regardless of the message and of the
`streamType` hint. -/
theorem Default_PushMessage_general (S : Stream σ F K) (streams : StreamMap σ)
    (streamType : StreamType) (serialisedHeader : List Nat) (msg : CSerializedNetMsg)
    (nPayloadLength nTotalSize : Nat) :
    PushMessage S [] streamType serialisedHeader msg nPayloadLength nTotalSize =
        ⟨.error (.runtime_error "DefaultStreamPolicy has no stream available for sending"),
          [], []⟩ ∧
    (∀ g : σ, streams.Has StreamType.GENERAL g →
      PushMessage S streams streamType serialisedHeader msg nPayloadLength nTotalSize =
        ⟨.ok (S.PushMessage g serialisedHeader msg nPayloadLength nTotalSize).bytes,
          streams.store StreamType.GENERAL
            (some (S.PushMessage g serialisedHeader msg nPayloadLength nTotalSize).stream),
          [(StreamType.GENERAL, StreamCall.PushMessage)]⟩) := by
  constructor
  · simp [PushMessage, StreamMap.size]
  · intro g hg
    have hpos := StreamMap.size_pos_of_find streams _ _ hg
    simp [PushMessage, hpos, StreamMap.index_of_find streams _ _ hg]

/-- Witness of C5, amended: on {GENERAL, DATA1} a ping with the hint DATA1
is sent on GENERAL all the same. -/
theorem Default_PushMessage_general_witness :
    StreamMap.Has [(StreamType.GENERAL, some (idle 0 0)), (StreamType.DATA1, some (idle 0 0))]
      StreamType.GENERAL (idle 0 0) ∧
    PushMessage queueStream
        [(StreamType.GENERAL, some (idle 0 0)), (StreamType.DATA1, some (idle 0 0))]
        StreamType.DATA1 [] pingMsg 0 24 =
      ⟨.ok 24,
        [(StreamType.GENERAL, some ⟨[], 0, 0, [pingMsg]⟩), (StreamType.DATA1, some (idle 0 0))],
        [(StreamType.GENERAL, StreamCall.PushMessage)]⟩ :=
  ⟨by decide, (Default_PushMessage_general queueStream
      [(StreamType.GENERAL, some (idle 0 0)), (StreamType.DATA1, some (idle 0 0))]
      StreamType.DATA1 [] pingMsg 0 24).2 (idle 0 0) (by decide)⟩

end DefaultStreamPolicy

/-! ## Theorems: receiving and servicing -/

namespace BlockPriorityStreamPolicy

variable {σ F K : Type}

/-- C6: priority ordering of `GetNextMessage`. For every stream set that
contains both DATA1 and GENERAL, called with an empty output list, if the
DATA1 stream's receive-next produces a message then the call returns exactly
that message with DATA1's more-available flag, the only call made is the one
on DATA1, and the GENERAL stream is left as it was. -/
theorem GetNextMessage_priority_order (S : Stream σ F K) (streams : StreamMap σ) (d g : σ)
    (hd : streams.Has StreamType.DATA1 d) (hg : streams.Has StreamType.GENERAL g)
    (hm : (S.GetNextMessage d []).msg ≠ []) :
    GetNextMessage S streams [] =
      ⟨.ok ((S.GetNextMessage d []).moreMsgs, (S.GetNextMessage d []).msg),
        streams.store StreamType.DATA1 (some (S.GetNextMessage d []).stream),
        [(StreamType.DATA1, StreamCall.GetNextMessage)]⟩ ∧
    (GetNextMessage S streams []).streams.Has StreamType.GENERAL g := by
  have he : GetNextMessage S streams [] =
      ⟨.ok ((S.GetNextMessage d []).moreMsgs, (S.GetNextMessage d []).msg),
        streams.store StreamType.DATA1 (some (S.GetNextMessage d []).stream),
        [(StreamType.DATA1, StreamCall.GetNextMessage)]⟩ := by
    have hlen : (S.GetNextMessage d []).msg.length > 0 := List.length_pos.2 hm
    simp [GetNextMessage, StreamMap.count_of_find streams _ _ hd,
      StreamMap.index_of_find streams _ _ hd, hlen]
  refine ⟨he, ?_⟩
  rw [he]
  show StreamMap.find _ _ = _
  rw [StreamMap.find_store_of_ne streams _ _ _ (by decide)]
  exact hg

/-- Witness of C6: with a block waiting on DATA1 and a transaction waiting
on GENERAL, the call returns the block and leaves GENERAL's queue alone. -/
theorem GetNextMessage_priority_order_witness :
    GetNextMessage queueStream
        [(StreamType.GENERAL, some (waiting [txIn])), (StreamType.DATA1, some (waiting [blockIn]))]
        [] =
      ⟨.ok (false, [blockIn]),
        [(StreamType.GENERAL, some (waiting [txIn])), (StreamType.DATA1, some (waiting []))],
        [(StreamType.DATA1, StreamCall.GetNextMessage)]⟩ :=
  (GetNextMessage_priority_order queueStream
    [(StreamType.GENERAL, some (waiting [txIn])), (StreamType.DATA1, some (waiting [blockIn]))]
    (waiting [blockIn]) (waiting [txIn]) (by decide) (by decide) (by decide)).1

end BlockPriorityStreamPolicy

namespace BlockPriorityStreamPolicy

variable {σ F K : Type}

theorem ServiceEach_eq (S : Stream σ F K) (setRecv setSend setError : F) (config : K)
    (streams : StreamMap σ) (gotNewMsgs : Bool) (bytesRecv bytesSent : Nat)
    (hn : streams.NoNull) (hr : bytesRecv < SIZE_MOD) (hs : bytesSent < SIZE_MOD) :
    ServiceEach S setRecv setSend setError config streams gotNewMsgs bytesRecv bytesSent =
      ⟨.ok (((ServicedResults S setRecv setSend setError config streams gotNewMsgs).map
              ServiceResult.gotNewMsgs).getLastD gotNewMsgs,
            (bytesRecv + ((ServicedResults S setRecv setSend setError config streams
              gotNewMsgs).map ServiceResult.bytesRecv).sum) % SIZE_MOD,
            (bytesSent + ((ServicedResults S setRecv setSend setError config streams
              gotNewMsgs).map ServiceResult.bytesSent).sum) % SIZE_MOD),
        List.zipWith (fun k r => (k, some r.stream)) streams.keys
          (ServicedResults S setRecv setSend setError config streams gotNewMsgs),
        streams.keys.map (fun k => (k, StreamCall.ServiceSocket))⟩ := by
  induction streams generalizing gotNewMsgs bytesRecv bytesSent with
  | nil =>
    simp [ServiceEach, ServicedResults, StreamMap.keys, Nat.mod_eq_of_lt hr,
      Nat.mod_eq_of_lt hs]
  | cons e rest ih =>
    obtain ⟨k, p⟩ := e
    have hrest : StreamMap.NoNull rest := fun x hx => hn x (List.mem_cons_of_mem _ hx)
    have hp : p.isSome = true := hn (k, p) (List.mem_cons_self _ _)
    cases p with
    | none => simp at hp
    | some s =>
      have hM : 0 < SIZE_MOD := by simp [SIZE_MOD]
      simp only [ServiceEach, ServicedResults]
      rw [ih _ _ _ hrest (Nat.mod_lt _ hM) (Nat.mod_lt _ hM)]
      simp only [StreamMap.keys, List.map_cons, List.zipWith_cons_cons, List.getLastD_cons,
        List.sum_cons, Nat.mod_add_mod, Nat.add_assoc]

/-- C7, as stated, fails: on the stream set {GENERAL: recv 10 / send 5,
DATA1: null handle} `ServiceSockets` services GENERAL, then calls through
the null handle of the DATA1 entry and faults; the call does not return the
summed counters. -/
theorem ServiceSockets_faults_on_null_handle :
    (ServiceSockets queueStream
        [(StreamType.GENERAL, some (idle 10 5)), (StreamType.DATA1, none)]
        () () () () false 0 0).result = .error .null_dereference ∧
    (ServiceSockets queueStream
        [(StreamType.GENERAL, some (idle 10 5)), (StreamType.DATA1, none)]
        () () () () false 0 0).calls = [(StreamType.GENERAL, StreamCall.ServiceSocket)] :=
  ⟨rfl, rfl⟩

/-- C7, amended: `ServiceSockets` services every stream of the stream set
exactly once per call, each with its own counters started at zero, and adds
the per-stream byte counts to the caller's counters in `size_t` arithmetic:
for every stream set with no null handle, `bytesRecv` after the call is
`bytesRecv` before plus the sum of all streams' received counts modulo
`2 ^ 64`, likewise `bytesSent`. On the empty set the counters are
unchanged. -/
theorem ServiceSockets_sums_counters (S : Stream σ F K) (setRecv setSend setError : F)
    (config : K) (streams : StreamMap σ) (gotNewMsgs : Bool) (bytesRecv bytesSent : Nat)
    (hn : streams.NoNull) (hr : bytesRecv < SIZE_MOD) (hs : bytesSent < SIZE_MOD) :
    (ServiceSockets S streams setRecv setSend setError config gotNewMsgs bytesRecv
        bytesSent).result =
      .ok (((ServicedResults S setRecv setSend setError config streams gotNewMsgs).map
              ServiceResult.gotNewMsgs).getLastD gotNewMsgs,
            (bytesRecv + ((ServicedResults S setRecv setSend setError config streams
              gotNewMsgs).map ServiceResult.bytesRecv).sum) % SIZE_MOD,
            (bytesSent + ((ServicedResults S setRecv setSend setError config streams
              gotNewMsgs).map ServiceResult.bytesSent).sum) % SIZE_MOD) ∧
    (ServiceSockets S streams setRecv setSend setError config gotNewMsgs bytesRecv
        bytesSent).calls = streams.keys.map (fun k => (k, StreamCall.ServiceSocket)) ∧
    (ServicedResults S setRecv setSend setError config streams gotNewMsgs).length =
      streams.length ∧
    (ServiceSockets S streams setRecv setSend setError config gotNewMsgs bytesRecv
        bytesSent).streams =
      List.zipWith (fun k r => (k, some r.stream)) streams.keys
        (ServicedResults S setRecv setSend setError config streams gotNewMsgs) ∧
    ServiceSockets S [] setRecv setSend setError config gotNewMsgs bytesRecv bytesSent =
      ⟨.ok (gotNewMsgs, bytesRecv, bytesSent), [], []⟩ := by
  have he := ServiceEach_eq S setRecv setSend setError config streams gotNewMsgs
    bytesRecv bytesSent hn hr hs
  refine ⟨?_, ?_, ?_, ?_, ?_⟩
  · simp only [ServiceSockets]
    rw [he]
  · simp only [ServiceSockets]
    rw [he]
  · clear he hr hs
    induction streams generalizing gotNewMsgs with
    | nil => rfl
    | cons e rest ih =>
      obtain ⟨k, p⟩ := e
      have hrest : StreamMap.NoNull rest := fun x hx => hn x (List.mem_cons_of_mem _ hx)
      have hp : p.isSome = true := hn (k, p) (List.mem_cons_self _ _)
      cases p with
      | none => simp at hp
      | some s => simp [ServicedResults, ih _ hrest]
  · simp only [ServiceSockets]
    rw [he]
  · simp [ServiceSockets, ServiceEach]

/-- Witness of C7: counters initially 0 and the streams {GENERAL: recv 10 /
send 5, DATA1: recv 3 / send 2} give bytesRecv = 13 and bytesSent = 7, each
stream having been serviced once. -/
theorem ServiceSockets_sums_counters_witness :
    (ServiceSockets queueStream
        [(StreamType.GENERAL, some (idle 10 5)), (StreamType.DATA1, some (idle 3 2))]
        () () () () false 0 0).result = .ok (false, 13, 7) ∧
    (ServiceSockets queueStream
        [(StreamType.GENERAL, some (idle 10 5)), (StreamType.DATA1, some (idle 3 2))]
        () () () () false 0 0).calls =
      [(StreamType.GENERAL, StreamCall.ServiceSocket),
        (StreamType.DATA1, StreamCall.ServiceSocket)] :=
  ⟨(ServiceSockets_sums_counters queueStream () () () ()
      [(StreamType.GENERAL, some (idle 10 5)), (StreamType.DATA1, some (idle 3 2))]
      false 0 0 (by decide) (by decide) (by decide)).1,
   (ServiceSockets_sums_counters queueStream () () () ()
      [(StreamType.GENERAL, some (idle 10 5)), (StreamType.DATA1, some (idle 3 2))]
      false 0 0 (by decide) (by decide) (by decide)).2.1⟩

end BlockPriorityStreamPolicy

/-- C8: empty-set idempotence. For both policies `GetNextMessage` on an
empty stream set returns false, leaves the output list unchanged, invokes no
stream operation and leaves the stream set empty; therefore any number of
repeated calls give the same result. -/
theorem GetNextMessage_empty_idempotent {σ F K : Type} (S : Stream σ F K)
    (msg : List CNetMessage) (n : Nat) :
    DefaultStreamPolicy.GetNextMessage S [] msg = ⟨.ok (false, msg), [], []⟩ ∧
    BlockPriorityStreamPolicy.GetNextMessage S [] msg = ⟨.ok (false, msg), [], []⟩ ∧
    Repeated (DefaultStreamPolicy.GetNextMessage S) n [] msg = ⟨.ok (false, msg), [], []⟩ ∧
    Repeated (BlockPriorityStreamPolicy.GetNextMessage S) n [] msg =
      ⟨.ok (false, msg), [], []⟩ := by
  have h1 : DefaultStreamPolicy.GetNextMessage S [] msg = ⟨.ok (false, msg), [], []⟩ := by
    simp [DefaultStreamPolicy.GetNextMessage, StreamMap.size]
  have h2 : BlockPriorityStreamPolicy.GetNextMessage S [] msg =
      ⟨.ok (false, msg), [], []⟩ := by
    simp [BlockPriorityStreamPolicy.GetNextMessage,
      BlockPriorityStreamPolicy.GetNextMessageGeneral, StreamMap.count, StreamMap.find]
  refine ⟨h1, h2, ?_, ?_⟩
  · induction n with
    | zero => simpa [Repeated] using h1
    | succ n ih => simp [Repeated, h1, ih]
  · induction n with
    | zero => simpa [Repeated] using h2
    | succ n ih => simp [Repeated, h2, ih]

/-! ## Lemmas: absence of faults and the shape of the map -/

namespace StreamMap

variable {σ : Type}

theorem mem_of_find (streams : StreamMap σ) (t : StreamType) (p : StreamPtr σ)
    (h : streams.find t = some p) : (t, p) ∈ streams := by
  induction streams with
  | nil => simp [find] at h
  | cons e rest ih =>
    obtain ⟨k, q⟩ := e
    by_cases hk : k = t
    · simp only [find, hk, if_true, Option.some.injEq] at h
      simp [hk, h]
    · simp only [find, hk, if_false] at h
      exact List.mem_cons_of_mem _ (ih h)

theorem find_of_mem (streams : StreamMap σ) (t : StreamType) (p : StreamPtr σ)
    (hu : streams.UniqueKeys) (h : (t, p) ∈ streams) : streams.find t = some p := by
  induction streams with
  | nil => simp at h
  | cons e rest ih =>
    obtain ⟨k, q⟩ := e
    have hu2 : k ∉ keys rest ∧ UniqueKeys rest := by
      simpa [UniqueKeys, keys] using hu
    rcases List.mem_cons.1 h with h1 | h1
    · simp only [Prod.mk.injEq] at h1
      simp [find, h1.1, h1.2]
    · have hk : ¬ k = t := by
        intro hkt
        apply hu2.1
        rw [hkt]
        exact List.mem_map.2 ⟨(t, p), h1, rfl⟩
      simp [find, hk, ih hu2.2 h1]

theorem isSome_of_find (streams : StreamMap σ) (t : StreamType) (p : StreamPtr σ)
    (hn : streams.NoNull) (h : streams.find t = some p) : p.isSome = true :=
  hn (t, p) (mem_of_find streams t p h)

end StreamMap

namespace BlockPriorityStreamPolicy

variable {σ F K : Type}

theorem FindStream_mem (exactMatch : Bool) (t : StreamType) (streams : StreamMap σ)
    (d : Option (StreamType × StreamPtr σ)) (x : StreamType × StreamPtr σ)
    (h : FindStream exactMatch t streams d = some x) : x ∈ streams ∨ d = some x := by
  induction streams generalizing d with
  | nil => exact Or.inr h
  | cons e rest ih =>
    obtain ⟨k, q⟩ := e
    simp only [FindStream] at h
    split at h
    · simp only [Option.some.injEq] at h
      exact Or.inl (by simp [← h])
    · split at h
      · rcases ih _ h with h1 | h1
        · exact Or.inl (List.mem_cons_of_mem _ h1)
        · simp only [Option.some.injEq] at h1
          exact Or.inl (by simp [← h1])
      · rcases ih _ h with h1 | h1
        · exact Or.inl (List.mem_cons_of_mem _ h1)
        · exact Or.inr h1

theorem ServiceEach_shape (S : Stream σ F K) (setRecv setSend setError : F) (config : K)
    (streams : StreamMap σ) (gotNewMsgs : Bool) (bytesRecv bytesSent : Nat) :
    (ServiceEach S setRecv setSend setError config streams gotNewMsgs bytesRecv
      bytesSent).streams.shape = streams.shape := by
  induction streams generalizing gotNewMsgs bytesRecv bytesSent with
  | nil => rfl
  | cons e rest ih =>
    obtain ⟨k, p⟩ := e
    cases p with
    | none => rfl
    | some s =>
      simp only [ServiceEach, StreamMap.shape, List.map_cons, Option.isSome_some]
      simp only [StreamMap.shape] at ih
      rw [ih]

theorem GetNextMessageGeneral_ok (S : Stream σ F K) (streams : StreamMap σ)
    (msg : List CNetMessage) (calls : List (StreamType × StreamCall))
    (h : streams.find StreamType.GENERAL ≠ some none) :
    ∃ v, (GetNextMessageGeneral S streams msg calls).result = .ok v := by
  cases hf : streams.find StreamType.GENERAL with
  | none => simp [GetNextMessageGeneral, StreamMap.count, hf]
  | some p =>
    cases p with
    | none => exact absurd hf h
    | some g => simp [GetNextMessageGeneral, StreamMap.count, StreamMap.index, hf]

theorem GetNextMessageGeneral_shape (S : Stream σ F K) (streams : StreamMap σ)
    (msg : List CNetMessage) (calls : List (StreamType × StreamCall)) :
    (GetNextMessageGeneral S streams msg calls).streams.shape = streams.shape := by
  cases hf : streams.find StreamType.GENERAL with
  | none => simp [GetNextMessageGeneral, StreamMap.count, hf]
  | some p =>
    cases p with
    | none => simp [GetNextMessageGeneral, StreamMap.count, StreamMap.index, hf]
    | some g =>
      simp only [GetNextMessageGeneral, StreamMap.count, StreamMap.index, hf,
        Option.isSome_some, if_true]
      exact StreamMap.shape_store streams _ _ _ hf rfl

end BlockPriorityStreamPolicy

namespace BlockPriorityStreamPolicy

variable {σ F K : Type}

theorem ServiceEach_ok (S : Stream σ F K) (setRecv setSend setError : F) (config : K)
    (streams : StreamMap σ) (gotNewMsgs : Bool) (bytesRecv bytesSent : Nat)
    (hn : streams.NoNull) :
    ∃ v, (ServiceEach S setRecv setSend setError config streams gotNewMsgs bytesRecv
      bytesSent).result = .ok v := by
  induction streams generalizing gotNewMsgs bytesRecv bytesSent with
  | nil => exact ⟨_, rfl⟩
  | cons e rest ih =>
    obtain ⟨k, p⟩ := e
    have hrest : StreamMap.NoNull rest := fun x hx => hn x (List.mem_cons_of_mem _ hx)
    have hp : p.isSome = true := hn (k, p) (List.mem_cons_self _ _)
    cases p with
    | none => simp at hp
    | some s =>
      simp only [ServiceEach]
      exact ih _ _ _ hrest

theorem GetNextMessage_shape (S : Stream σ F K) (streams : StreamMap σ)
    (msg : List CNetMessage) :
    (GetNextMessage S streams msg).streams.shape = streams.shape := by
  cases hf : streams.find StreamType.DATA1 with
  | none =>
    simp only [GetNextMessage, StreamMap.count, hf, Option.isSome_none]
    exact GetNextMessageGeneral_shape S streams msg []
  | some p =>
    cases p with
    | none => simp [GetNextMessage, StreamMap.count, StreamMap.index, hf]
    | some d =>
      simp only [GetNextMessage, StreamMap.count, StreamMap.index, hf, Option.isSome_some,
        if_true]
      split
      · exact StreamMap.shape_store streams _ _ _ hf rfl
      · rw [GetNextMessageGeneral_shape]
        exact StreamMap.shape_store streams _ _ _ hf rfl

theorem GetNextMessage_ok (S : Stream σ F K) (streams : StreamMap σ)
    (msg : List CNetMessage) (hn : streams.NoNull) :
    ∃ v, (GetNextMessage S streams msg).result = .ok v := by
  have hgen : streams.find StreamType.GENERAL ≠ some none := by
    intro h
    have := StreamMap.isSome_of_find streams _ _ hn h
    simp at this
  cases hf : streams.find StreamType.DATA1 with
  | none =>
    simp only [GetNextMessage, StreamMap.count, hf, Option.isSome_none]
    exact GetNextMessageGeneral_ok S streams msg [] hgen
  | some p =>
    cases p with
    | none =>
      have := StreamMap.isSome_of_find streams _ _ hn hf
      simp at this
    | some d =>
      simp only [GetNextMessage, StreamMap.count, StreamMap.index, hf, Option.isSome_some,
        if_true]
      split
      · exact ⟨_, rfl⟩
      · apply GetNextMessageGeneral_ok
        rw [StreamMap.find_store_of_ne streams _ _ _ (by decide)]
        exact hgen

theorem PushMessage_shape (enum_cast : StreamType → String) (S : Stream σ F K)
    (streams : StreamMap σ) (streamType : StreamType) (serialisedHeader : List Nat)
    (msg : CSerializedNetMsg) (nPayloadLength nTotalSize : Nat) (hu : streams.UniqueKeys) :
    (PushMessage enum_cast S streams streamType serialisedHeader msg nPayloadLength
      nTotalSize).streams.shape = streams.shape := by
  unfold PushMessage
  simp only
  split
  · rfl
  · rfl
  · rename_i type s hfs
    rcases FindStream_mem _ _ _ _ _ hfs with h1 | h1
    · exact StreamMap.shape_store streams _ _ _ (StreamMap.find_of_mem streams _ _ hu h1) rfl
    · simp at h1

end BlockPriorityStreamPolicy

namespace DefaultStreamPolicy

variable {σ F K : Type}

theorem find_general_of_count (streams : StreamMap σ)
    (h : streams = [] ∨ streams.count StreamType.GENERAL = 1) :
    streams = [] ∨ ∃ p, streams.find StreamType.GENERAL = some p := by
  rcases h with h | h
  · exact Or.inl h
  · right
    cases hf : streams.find StreamType.GENERAL with
    | none => simp [StreamMap.count, hf] at h
    | some p => exact ⟨p, rfl⟩

end DefaultStreamPolicy

/-! ## Theorems: absence of faults, and the stream map as a frame -/

theorem BlockPriority_ServiceEach_ok_iff {σ F K : Type} (S : Stream σ F K)
    (setRecv setSend setError : F) (config : K) (streams : StreamMap σ)
    (gotNewMsgs : Bool) (bytesRecv bytesSent : Nat) :
    (∃ v, (BlockPriorityStreamPolicy.ServiceEach S setRecv setSend setError config streams
      gotNewMsgs bytesRecv bytesSent).result = .ok v) ↔ streams.NoNull := by
  constructor
  · intro h
    induction streams generalizing gotNewMsgs bytesRecv bytesSent with
    | nil =>
      intro e he
      simp at he
    | cons e rest ih =>
      obtain ⟨k, p⟩ := e
      cases p with
      | none =>
        obtain ⟨v, hv⟩ := h
        simp [BlockPriorityStreamPolicy.ServiceEach] at hv
      | some s =>
        simp only [BlockPriorityStreamPolicy.ServiceEach] at h
        have hrest := ih _ _ _ h
        intro x hx
        rcases List.mem_cons.1 hx with hx | hx
        · rw [hx]
          rfl
        · exact hrest x hx
  · exact BlockPriorityStreamPolicy.ServiceEach_ok S _ _ _ _ streams _ _ _

theorem BlockPriority_GetNextMessage_ok_of_handles {σ F K : Type} (S : Stream σ F K)
    (streams : StreamMap σ) (msg : List CNetMessage)
    (hd : ¬ streams.HasNull StreamType.DATA1) (hg : ¬ streams.HasNull StreamType.GENERAL) :
    ∃ v, (BlockPriorityStreamPolicy.GetNextMessage S streams msg).result = .ok v := by
  have hgen : streams.find StreamType.GENERAL ≠ some none := by
    intro h
    exact hg (by simp [StreamMap.HasNull, h])
  cases hf : streams.find StreamType.DATA1 with
  | none =>
    simp only [BlockPriorityStreamPolicy.GetNextMessage, StreamMap.count, hf,
      Option.isSome_none]
    exact BlockPriorityStreamPolicy.GetNextMessageGeneral_ok S streams msg [] hgen
  | some p =>
    cases p with
    | none => exact absurd (by simp [StreamMap.HasNull, hf]) hd
    | some d =>
      simp only [BlockPriorityStreamPolicy.GetNextMessage, StreamMap.count, StreamMap.index,
        hf, Option.isSome_some, if_true]
      split
      · exact ⟨_, rfl⟩
      · apply BlockPriorityStreamPolicy.GetNextMessageGeneral_ok
        rw [StreamMap.find_store_of_ne streams _ _ _ (by decide)]
        exact hgen

theorem Default_index_general_cases {σ : Type} (streams : StreamMap σ) :
    (∃ g, streams.Has StreamType.GENERAL g) ∨
    (¬ (∃ g, streams.Has StreamType.GENERAL g) ∧
      (streams.index StreamType.GENERAL).2 = none) := by
  cases hf : streams.find StreamType.GENERAL with
  | none =>
    right
    refine ⟨?_, by simp [StreamMap.index, hf]⟩
    rintro ⟨g, hg⟩
    rw [StreamMap.Has, hf] at hg
    simp at hg
  | some q =>
    cases q with
    | none =>
      right
      refine ⟨?_, by simp [StreamMap.index, hf]⟩
      rintro ⟨g, hg⟩
      rw [StreamMap.Has, hf] at hg
      simp at hg
    | some g => exact Or.inl ⟨g, hf⟩

/-- C9, as stated, fails. For the DefaultStreamPolicy: on the stream set
{DATA1}, which lacks the GENERAL stream, both `GetNextMessage` and
`ServiceSockets` call through the null handle that `streams[GENERAL]`
yields. For the BlockPriorityStreamPolicy: on the stream set {DATA1: null
handle} both operations call through the null handle of the entry. -/
theorem Default_receive_faults_without_general :
    (DefaultStreamPolicy.GetNextMessage queueStream
        [(StreamType.DATA1, some (idle 0 0))] []).result = .error .null_dereference ∧
    (DefaultStreamPolicy.ServiceSockets queueStream
        [(StreamType.DATA1, some (idle 0 0))] () () () () false 0 0).result =
      .error .null_dereference ∧
    (BlockPriorityStreamPolicy.GetNextMessage queueStream
        [(StreamType.DATA1, none)] []).result = .error .null_dereference ∧
    (BlockPriorityStreamPolicy.ServiceSockets queueStream
        [(StreamType.DATA1, none)] () () () () false 0 0).result =
      .error .null_dereference :=
  ⟨rfl, rfl, rfl, rfl⟩

/-- C9, amended: `GetNextMessage` and `ServiceSockets` complete without
raising an error and without a call through a null handle: for the
BlockPriorityStreamPolicy, `GetNextMessage` on every stream set that binds
neither DATA1 nor GENERAL to a null handle and `ServiceSockets` on every
stream set with no null handle (and on no other), including the empty set
and sets that lack the GENERAL stream; for the DefaultStreamPolicy, both
operations on every stream set that is empty or binds GENERAL to a stream
(and on no other). For the BlockPriorityStreamPolicy a stream set with
neither DATA1 nor GENERAL is nothing to do: no message, false, no call. -/
theorem receive_and_service_complete {σ F K : Type} (S : Stream σ F K)
    (streams : StreamMap σ) (msg : List CNetMessage) (setRecv setSend setError : F)
    (config : K) (gotNewMsgs : Bool) (bytesRecv bytesSent : Nat) :
    (¬ streams.HasNull StreamType.DATA1 → ¬ streams.HasNull StreamType.GENERAL →
      ∃ v, (BlockPriorityStreamPolicy.GetNextMessage S streams msg).result = .ok v) ∧
    ((∃ v, (BlockPriorityStreamPolicy.ServiceSockets S streams setRecv setSend setError
        config gotNewMsgs bytesRecv bytesSent).result = .ok v) ↔ streams.NoNull) ∧
    (streams.Lacks StreamType.DATA1 → streams.Lacks StreamType.GENERAL →
      BlockPriorityStreamPolicy.GetNextMessage S streams msg =
        ⟨.ok (false, msg), streams, []⟩) ∧
    ((∃ v, (DefaultStreamPolicy.GetNextMessage S streams msg).result = .ok v) ↔
      (streams = [] ∨ ∃ g, streams.Has StreamType.GENERAL g)) ∧
    ((∃ v, (DefaultStreamPolicy.ServiceSockets S streams setRecv setSend setError
        config gotNewMsgs bytesRecv bytesSent).result = .ok v) ↔
      (streams = [] ∨ ∃ g, streams.Has StreamType.GENERAL g)) := by
  refine ⟨BlockPriority_GetNextMessage_ok_of_handles S streams msg,
    BlockPriority_ServiceEach_ok_iff S _ _ _ _ streams _ _ _, ?_, ?_, ?_⟩
  · intro hd hg
    simp [BlockPriorityStreamPolicy.GetNextMessage,
      BlockPriorityStreamPolicy.GetNextMessageGeneral,
      StreamMap.count_of_find_none streams _ hd, StreamMap.count_of_find_none streams _ hg]
  · cases streams with
    | nil => simp [DefaultStreamPolicy.GetNextMessage, StreamMap.size]
    | cons e rest =>
      rcases Default_index_general_cases (e :: rest) with ⟨g, hg⟩ | ⟨hno, hidx⟩
      · simp only [DefaultStreamPolicy.GetNextMessage, StreamMap.size, List.length_cons,
          Nat.zero_lt_succ, if_true, StreamMap.index_of_find _ _ _ hg]
        exact ⟨fun _ => Or.inr ⟨g, hg⟩, fun _ => ⟨_, rfl⟩⟩
      · have hsplit : StreamMap.index (e :: rest) StreamType.GENERAL =
            ((StreamMap.index (e :: rest) StreamType.GENERAL).1, none) := by
          rw [← hidx]
        simp only [DefaultStreamPolicy.GetNextMessage, StreamMap.size, List.length_cons,
          Nat.zero_lt_succ, if_true]
        rw [hsplit]
        constructor
        · rintro ⟨v, hv⟩
          simp at hv
        · rintro (h | h)
          · simp at h
          · exact absurd h hno
  · cases streams with
    | nil => simp [DefaultStreamPolicy.ServiceSockets, StreamMap.size]
    | cons e rest =>
      rcases Default_index_general_cases (e :: rest) with ⟨g, hg⟩ | ⟨hno, hidx⟩
      · simp only [DefaultStreamPolicy.ServiceSockets, StreamMap.size, List.length_cons,
          Nat.zero_lt_succ, if_true, StreamMap.index_of_find _ _ _ hg]
        exact ⟨fun _ => Or.inr ⟨g, hg⟩, fun _ => ⟨_, rfl⟩⟩
      · have hsplit : StreamMap.index (e :: rest) StreamType.GENERAL =
            ((StreamMap.index (e :: rest) StreamType.GENERAL).1, none) := by
          rw [← hidx]
        simp only [DefaultStreamPolicy.ServiceSockets, StreamMap.size, List.length_cons,
          Nat.zero_lt_succ, if_true]
        rw [hsplit]
        constructor
        · rintro ⟨v, hv⟩
          simp at hv
        · rintro (h | h)
          · simp at h
          · exact absurd h hno

/-- Witness of C9, amended: the BlockPriorityStreamPolicy on {DATA1} only
(idle) reports no message and services it; on a set with neither DATA1 nor
GENERAL it makes no call; the DefaultStreamPolicy on {GENERAL, DATA1: null
handle} completes both operations. -/
theorem receive_and_service_complete_witness :
    (∃ v, (BlockPriorityStreamPolicy.GetNextMessage queueStream
        [(StreamType.DATA1, some (idle 3 2))] []).result = .ok v) ∧
    (∃ v, (BlockPriorityStreamPolicy.ServiceSockets queueStream
        [(StreamType.DATA1, some (idle 3 2))] () () () () false 0 0).result = .ok v) ∧
    BlockPriorityStreamPolicy.GetNextMessage queueStream
        [(StreamType.OTHER 0, some (waiting [txIn]))] [] =
      ⟨.ok (false, []), [(StreamType.OTHER 0, some (waiting [txIn]))], []⟩ ∧
    (∃ v, (DefaultStreamPolicy.GetNextMessage queueStream
        [(StreamType.GENERAL, some (waiting [txIn])), (StreamType.DATA1, none)]
        []).result = .ok v) ∧
    (∃ v, (DefaultStreamPolicy.ServiceSockets queueStream
        [(StreamType.GENERAL, some (waiting [txIn])), (StreamType.DATA1, none)]
        () () () () false 0 0).result = .ok v) :=
  ⟨(receive_and_service_complete queueStream [(StreamType.DATA1, some (idle 3 2))] []
      () () () () false 0 0).1 (by decide) (by decide),
   (receive_and_service_complete queueStream [(StreamType.DATA1, some (idle 3 2))] []
      () () () () false 0 0).2.1.2 (by decide),
   (receive_and_service_complete queueStream [(StreamType.OTHER 0, some (waiting [txIn]))] []
      () () () () false 0 0).2.2.1 (by decide) (by decide),
   (receive_and_service_complete queueStream
      [(StreamType.GENERAL, some (waiting [txIn])), (StreamType.DATA1, none)] []
      () () () () false 0 0).2.2.2.1.2 (Or.inr ⟨waiting [txIn], by decide⟩),
   (receive_and_service_complete queueStream
      [(StreamType.GENERAL, some (waiting [txIn])), (StreamType.DATA1, none)] []
      () () () () false 0 0).2.2.2.2.2 (Or.inr ⟨waiting [txIn], by decide⟩)⟩

/-- C10, as stated, fails for the DefaultStreamPolicy: on the stream set
{DATA1} the lookup `streams[GENERAL]` of `GetNextMessage` inserts the key
GENERAL, bound to a null handle, into the map. -/
theorem Default_GetNextMessage_inserts_general :
    StreamMap.count [(StreamType.DATA1, some (idle 0 0))] StreamType.GENERAL = 0 ∧
    StreamMap.count (DefaultStreamPolicy.GetNextMessage queueStream
        [(StreamType.DATA1, some (idle 0 0))] []).streams StreamType.GENERAL = 1 ∧
    StreamMap.find (DefaultStreamPolicy.GetNextMessage queueStream
        [(StreamType.DATA1, some (idle 0 0))] []).streams StreamType.GENERAL = some none :=
  ⟨rfl, rfl, rfl⟩

/-- C10, amended: the stream map is not mutated by a policy operation. For
every operation of the BlockPriorityStreamPolicy and every stream set, and
for every operation of the DefaultStreamPolicy and every stream set that is
empty or has the key GENERAL, the identifiers in the map and the handle
bound to each (null or not) are the same after the call as before it,
whether the call succeeds or fails. -/
theorem policies_keep_stream_map {σ F K : Type} (enum_cast : StreamType → String)
    (S : Stream σ F K) (streams : StreamMap σ) (msg : List CNetMessage)
    (setRecv setSend setError : F) (config : K) (gotNewMsgs : Bool)
    (bytesRecv bytesSent : Nat) (streamType : StreamType) (serialisedHeader : List Nat)
    (out : CSerializedNetMsg) (nPayloadLength nTotalSize : Nat)
    (hu : streams.UniqueKeys) :
    (BlockPriorityStreamPolicy.GetNextMessage S streams msg).streams.shape = streams.shape ∧
    (BlockPriorityStreamPolicy.ServiceSockets S streams setRecv setSend setError config
        gotNewMsgs bytesRecv bytesSent).streams.shape = streams.shape ∧
    (BlockPriorityStreamPolicy.PushMessage enum_cast S streams streamType serialisedHeader
        out nPayloadLength nTotalSize).streams.shape = streams.shape ∧
    ((streams = [] ∨ streams.count StreamType.GENERAL = 1) →
      (DefaultStreamPolicy.GetNextMessage S streams msg).streams.shape = streams.shape ∧
      (DefaultStreamPolicy.ServiceSockets S streams setRecv setSend setError config
          gotNewMsgs bytesRecv bytesSent).streams.shape = streams.shape ∧
      (DefaultStreamPolicy.PushMessage S streams streamType serialisedHeader
          out nPayloadLength nTotalSize).streams.shape = streams.shape) := by
  refine ⟨BlockPriorityStreamPolicy.GetNextMessage_shape S streams msg,
    BlockPriorityStreamPolicy.ServiceEach_shape S _ _ _ _ streams _ _ _,
    BlockPriorityStreamPolicy.PushMessage_shape enum_cast S streams _ _ _ _ _ hu, ?_⟩
  intro h
  rcases DefaultStreamPolicy.find_general_of_count streams h with h1 | ⟨p, hp⟩
  · subst h1
    simp [DefaultStreamPolicy.GetNextMessage, DefaultStreamPolicy.ServiceSockets,
      DefaultStreamPolicy.PushMessage, StreamMap.size]
  · have hpos := StreamMap.size_pos_of_find streams _ _ hp
    cases p with
    | none =>
      simp [DefaultStreamPolicy.GetNextMessage, DefaultStreamPolicy.ServiceSockets,
        DefaultStreamPolicy.PushMessage, hpos, StreamMap.index_of_find streams _ _ hp]
    | some g =>
      simp only [DefaultStreamPolicy.GetNextMessage, DefaultStreamPolicy.ServiceSockets,
        DefaultStreamPolicy.PushMessage, hpos, StreamMap.index_of_find streams _ _ hp,
        if_true]
      exact ⟨StreamMap.shape_store streams _ _ _ hp rfl,
        StreamMap.shape_store streams _ _ _ hp rfl,
        StreamMap.shape_store streams _ _ _ hp rfl⟩

/-- Witness of C10, amended: on {GENERAL, DATA1} a successful receive and a
failed send (explicit request for an absent stream type) both leave the
identifiers and handles of the map as they were. -/
theorem policies_keep_stream_map_witness :
    StreamMap.shape (BlockPriorityStreamPolicy.GetNextMessage queueStream
        [(StreamType.GENERAL, some (waiting [txIn])), (StreamType.DATA1, some (idle 0 0))]
        []).streams =
      [(StreamType.GENERAL, true), (StreamType.DATA1, true)] ∧
    StreamMap.shape (BlockPriorityStreamPolicy.PushMessage streamTypeName queueStream
        [(StreamType.GENERAL, some (waiting [txIn])), (StreamType.DATA1, some (idle 0 0))]
        (StreamType.OTHER 1) [] txMsg 3 27).streams =
      [(StreamType.GENERAL, true), (StreamType.DATA1, true)] ∧
    StreamMap.shape (DefaultStreamPolicy.PushMessage queueStream
        [(StreamType.GENERAL, some (waiting [txIn])), (StreamType.DATA1, some (idle 0 0))]
        StreamType.UNKNOWN [] txMsg 3 27).streams =
      [(StreamType.GENERAL, true), (StreamType.DATA1, true)] :=
  ⟨(policies_keep_stream_map streamTypeName queueStream
      [(StreamType.GENERAL, some (waiting [txIn])), (StreamType.DATA1, some (idle 0 0))]
      [] () () () () false 0 0 (StreamType.OTHER 1) [] txMsg 3 27 (by decide)).1,
   (policies_keep_stream_map streamTypeName queueStream
      [(StreamType.GENERAL, some (waiting [txIn])), (StreamType.DATA1, some (idle 0 0))]
      [] () () () () false 0 0 (StreamType.OTHER 1) [] txMsg 3 27 (by decide)).2.2.1,
   ((policies_keep_stream_map streamTypeName queueStream
      [(StreamType.GENERAL, some (waiting [txIn])), (StreamType.DATA1, some (idle 0 0))]
      [] () () () () false 0 0 StreamType.UNKNOWN [] txMsg 3 27 (by decide)).2.2.2
      (Or.inr (by decide))).2.2⟩

/-! ## Theorems: degradation to the single stream, setup, and the default read paths -/

/-- C11: graceful degradation. On the stream set {GENERAL} the
BlockPriorityStreamPolicy behaves exactly like the DefaultStreamPolicy:
`GetNextMessage` has the same outcome; `ServiceSockets`, with counters that
start at zero (the stream's own counts being `size_t` values), services the
GENERAL stream once and yields the same flag and counters; `PushMessage`
with the identifier `UNKNOWN` or `GENERAL` sends on GENERAL with the same
outcome, for every message. -/
theorem BlockPriority_degrades_to_Default {σ F K : Type} (enum_cast : StreamType → String)
    (S : Stream σ F K) (g : σ) (msg : List CNetMessage) (setRecv setSend setError : F)
    (config : K) (gotNewMsgs : Bool) (serialisedHeader : List Nat)
    (out : CSerializedNetMsg) (nPayloadLength nTotalSize : Nat)
    (hr : (S.ServiceSocket g setRecv setSend setError config gotNewMsgs 0 0).bytesRecv
      < SIZE_MOD)
    (hs : (S.ServiceSocket g setRecv setSend setError config gotNewMsgs 0 0).bytesSent
      < SIZE_MOD) :
    BlockPriorityStreamPolicy.GetNextMessage S [(StreamType.GENERAL, some g)] msg =
      DefaultStreamPolicy.GetNextMessage S [(StreamType.GENERAL, some g)] msg ∧
    BlockPriorityStreamPolicy.ServiceSockets S [(StreamType.GENERAL, some g)]
        setRecv setSend setError config gotNewMsgs 0 0 =
      DefaultStreamPolicy.ServiceSockets S [(StreamType.GENERAL, some g)]
        setRecv setSend setError config gotNewMsgs 0 0 ∧
    (BlockPriorityStreamPolicy.ServiceSockets S [(StreamType.GENERAL, some g)]
        setRecv setSend setError config gotNewMsgs 0 0).calls =
      [(StreamType.GENERAL, StreamCall.ServiceSocket)] ∧
    (∀ t, t = StreamType.UNKNOWN ∨ t = StreamType.GENERAL →
      BlockPriorityStreamPolicy.PushMessage enum_cast S [(StreamType.GENERAL, some g)] t
          serialisedHeader out nPayloadLength nTotalSize =
        DefaultStreamPolicy.PushMessage S [(StreamType.GENERAL, some g)] t
          serialisedHeader out nPayloadLength nTotalSize ∧
      (BlockPriorityStreamPolicy.PushMessage enum_cast S [(StreamType.GENERAL, some g)] t
          serialisedHeader out nPayloadLength nTotalSize).calls =
        [(StreamType.GENERAL, StreamCall.PushMessage)]) := by
  refine ⟨?_, ?_, ?_, ?_⟩
  · simp [BlockPriorityStreamPolicy.GetNextMessage,
      BlockPriorityStreamPolicy.GetNextMessageGeneral, DefaultStreamPolicy.GetNextMessage,
      StreamMap.count, StreamMap.find, StreamMap.index, StreamMap.size, StreamMap.store]
  · simp [BlockPriorityStreamPolicy.ServiceSockets, BlockPriorityStreamPolicy.ServiceEach,
      DefaultStreamPolicy.ServiceSockets, StreamMap.find, StreamMap.index, StreamMap.size,
      StreamMap.store, Nat.mod_eq_of_lt hr, Nat.mod_eq_of_lt hs]
  · simp [BlockPriorityStreamPolicy.ServiceSockets, BlockPriorityStreamPolicy.ServiceEach]
  · intro t ht
    rcases ht with ht | ht
    · subst ht
      by_cases hp : IsHighPriorityMsg out.Command = true
      · simp [BlockPriorityStreamPolicy.PushMessage, BlockPriorityStreamPolicy.ResolveType,
          BlockPriorityStreamPolicy.FindStream, DefaultStreamPolicy.PushMessage, hp,
          StreamMap.find, StreamMap.index, StreamMap.size, StreamMap.store]
      · simp [BlockPriorityStreamPolicy.PushMessage, BlockPriorityStreamPolicy.ResolveType,
          BlockPriorityStreamPolicy.FindStream, DefaultStreamPolicy.PushMessage, hp,
          StreamMap.find, StreamMap.index, StreamMap.size, StreamMap.store]
    · subst ht
      simp [BlockPriorityStreamPolicy.PushMessage, BlockPriorityStreamPolicy.ResolveType,
        BlockPriorityStreamPolicy.FindStream, DefaultStreamPolicy.PushMessage,
        StreamMap.find, StreamMap.index, StreamMap.size, StreamMap.store]

/-- Witness of C11: on {GENERAL}, with a transaction waiting and 10 / 5
bytes moved per servicing, both policies deliver the transaction, report the
counters 10 and 5, and send a ping on GENERAL. -/
theorem BlockPriority_degrades_to_Default_witness :
    BlockPriorityStreamPolicy.GetNextMessage queueStream
        [(StreamType.GENERAL, some ⟨[txIn], 10, 5, []⟩)] [] =
      DefaultStreamPolicy.GetNextMessage queueStream
        [(StreamType.GENERAL, some ⟨[txIn], 10, 5, []⟩)] [] ∧
    (BlockPriorityStreamPolicy.ServiceSockets queueStream
        [(StreamType.GENERAL, some ⟨[txIn], 10, 5, []⟩)] () () () () false 0 0).result =
      .ok (true, 10, 5) ∧
    (DefaultStreamPolicy.ServiceSockets queueStream
        [(StreamType.GENERAL, some ⟨[txIn], 10, 5, []⟩)] () () () () false 0 0).result =
      .ok (true, 10, 5) ∧
    (BlockPriorityStreamPolicy.PushMessage streamTypeName queueStream
        [(StreamType.GENERAL, some ⟨[txIn], 10, 5, []⟩)] StreamType.UNKNOWN [] pingMsg 0
        24).calls = [(StreamType.GENERAL, StreamCall.PushMessage)] :=
  ⟨(BlockPriority_degrades_to_Default streamTypeName queueStream ⟨[txIn], 10, 5, []⟩ []
      () () () () false [] pingMsg 0 24 (by decide) (by decide)).1,
   rfl,
   (BlockPriority_degrades_to_Default streamTypeName queueStream ⟨[txIn], 10, 5, []⟩ []
      () () () () false [] pingMsg 0 24 (by decide) (by decide)).2.1 ▸ rfl,
   ((BlockPriority_degrades_to_Default streamTypeName queueStream ⟨[txIn], 10, 5, []⟩ []
      () () () () false [] pingMsg 0 24 (by decide) (by decide)).2.2.2
      StreamType.UNKNOWN (Or.inl rfl)).2⟩

/-- C12: `SetupStreams` issues exactly one new-stream request per call, for
the stream identifier DATA1, carrying the peer address and the association
identifier it was given and the policy name "BlockPriority"; no other stream
type is requested, and the two policy names "Default" and "BlockPriority"
are distinct. -/
theorem SetupStreams_requests_DATA1 {A I : Type} (peerAddr : A) (assocID : I) :
    (BlockPriorityStreamPolicy.SetupStreams peerAddr assocID).queued =
      [⟨peerAddr, StreamType.DATA1, assocID, "BlockPriority"⟩] ∧
    (BlockPriorityStreamPolicy.SetupStreams peerAddr assocID).queued.length = 1 ∧
    (∀ r ∈ (BlockPriorityStreamPolicy.SetupStreams peerAddr assocID).queued,
      r.streamType = StreamType.DATA1) ∧
    DefaultStreamPolicy.POLICY_NAME = "Default" ∧
    BlockPriorityStreamPolicy.POLICY_NAME = "BlockPriority" ∧
    DefaultStreamPolicy.POLICY_NAME ≠ BlockPriorityStreamPolicy.POLICY_NAME := by
  refine ⟨rfl, rfl, ?_, rfl, rfl, by decide⟩
  intro r hr
  simp only [BlockPriorityStreamPolicy.SetupStreams, List.mem_singleton] at hr
  rw [hr]

/-- C13: the read and service paths of the DefaultStreamPolicy touch only
the general-purpose stream. On every stream set that contains GENERAL,
`GetNextMessage` returns exactly the more-available flag and the message
list of the GENERAL stream's receive-next, and `ServiceSockets` services the
GENERAL stream exactly once and no other stream, passing the caller's flag
and counters through; every other entry is left as it was. On the empty
set `ServiceSockets` leaves the flag and both counters unchanged. -/
theorem Default_touches_only_general {σ F K : Type} (S : Stream σ F K)
    (streams : StreamMap σ) (g : σ) (msg : List CNetMessage)
    (setRecv setSend setError : F) (config : K) (gotNewMsgs : Bool)
    (bytesRecv bytesSent : Nat) (hg : streams.Has StreamType.GENERAL g) :
    DefaultStreamPolicy.GetNextMessage S streams msg =
      ⟨.ok ((S.GetNextMessage g msg).moreMsgs, (S.GetNextMessage g msg).msg),
        streams.store StreamType.GENERAL (some (S.GetNextMessage g msg).stream),
        [(StreamType.GENERAL, StreamCall.GetNextMessage)]⟩ ∧
    DefaultStreamPolicy.ServiceSockets S streams setRecv setSend setError config
        gotNewMsgs bytesRecv bytesSent =
      ⟨.ok ((S.ServiceSocket g setRecv setSend setError config gotNewMsgs bytesRecv
              bytesSent).gotNewMsgs,
            (S.ServiceSocket g setRecv setSend setError config gotNewMsgs bytesRecv
              bytesSent).bytesRecv,
            (S.ServiceSocket g setRecv setSend setError config gotNewMsgs bytesRecv
              bytesSent).bytesSent),
        streams.store StreamType.GENERAL
          (some (S.ServiceSocket g setRecv setSend setError config gotNewMsgs bytesRecv
              bytesSent).stream),
        [(StreamType.GENERAL, StreamCall.ServiceSocket)]⟩ ∧
    (∀ k, k ≠ StreamType.GENERAL →
      (DefaultStreamPolicy.GetNextMessage S streams msg).streams.find k = streams.find k ∧
      (DefaultStreamPolicy.ServiceSockets S streams setRecv setSend setError config
        gotNewMsgs bytesRecv bytesSent).streams.find k = streams.find k) ∧
    DefaultStreamPolicy.ServiceSockets S [] setRecv setSend setError config
        gotNewMsgs bytesRecv bytesSent =
      ⟨.ok (gotNewMsgs, bytesRecv, bytesSent), [], []⟩ := by
  have hpos := StreamMap.size_pos_of_find streams _ _ hg
  have h1 : DefaultStreamPolicy.GetNextMessage S streams msg =
      ⟨.ok ((S.GetNextMessage g msg).moreMsgs, (S.GetNextMessage g msg).msg),
        streams.store StreamType.GENERAL (some (S.GetNextMessage g msg).stream),
        [(StreamType.GENERAL, StreamCall.GetNextMessage)]⟩ := by
    simp [DefaultStreamPolicy.GetNextMessage, hpos, StreamMap.index_of_find streams _ _ hg]
  have h2 : DefaultStreamPolicy.ServiceSockets S streams setRecv setSend setError config
        gotNewMsgs bytesRecv bytesSent =
      ⟨.ok ((S.ServiceSocket g setRecv setSend setError config gotNewMsgs bytesRecv
              bytesSent).gotNewMsgs,
            (S.ServiceSocket g setRecv setSend setError config gotNewMsgs bytesRecv
              bytesSent).bytesRecv,
            (S.ServiceSocket g setRecv setSend setError config gotNewMsgs bytesRecv
              bytesSent).bytesSent),
        streams.store StreamType.GENERAL
          (some (S.ServiceSocket g setRecv setSend setError config gotNewMsgs bytesRecv
              bytesSent).stream),
        [(StreamType.GENERAL, StreamCall.ServiceSocket)]⟩ := by
    simp [DefaultStreamPolicy.ServiceSockets, hpos, StreamMap.index_of_find streams _ _ hg]
  refine ⟨h1, h2, ?_, ?_⟩
  · intro k hk
    rw [h1, h2]
    exact ⟨StreamMap.find_store_of_ne streams _ k _ hk,
      StreamMap.find_store_of_ne streams _ k _ hk⟩
  · simp [DefaultStreamPolicy.ServiceSockets, StreamMap.size]

/-- Witness of C13: on {DATA1, GENERAL}, with a block waiting on DATA1 and
a transaction on GENERAL, the DefaultStreamPolicy delivers the transaction
and services GENERAL only (7 received, 1 sent, added to the caller's 100 and
200). -/
theorem Default_touches_only_general_witness :
    DefaultStreamPolicy.GetNextMessage queueStream
        [(StreamType.DATA1, some ⟨[blockIn], 3, 2, []⟩),
          (StreamType.GENERAL, some ⟨[txIn], 7, 1, []⟩)] [] =
      ⟨.ok (false, [txIn]),
        [(StreamType.DATA1, some ⟨[blockIn], 3, 2, []⟩),
          (StreamType.GENERAL, some ⟨[], 7, 1, []⟩)],
        [(StreamType.GENERAL, StreamCall.GetNextMessage)]⟩ ∧
    DefaultStreamPolicy.ServiceSockets queueStream
        [(StreamType.DATA1, some ⟨[blockIn], 3, 2, []⟩),
          (StreamType.GENERAL, some ⟨[txIn], 7, 1, []⟩)] () () () () false 100 200 =
      ⟨.ok (true, 107, 201),
        [(StreamType.DATA1, some ⟨[blockIn], 3, 2, []⟩),
          (StreamType.GENERAL, some ⟨[txIn], 7, 1, []⟩)],
        [(StreamType.GENERAL, StreamCall.ServiceSocket)]⟩ :=
  ⟨(Default_touches_only_general queueStream
      [(StreamType.DATA1, some ⟨[blockIn], 3, 2, []⟩),
        (StreamType.GENERAL, some ⟨[txIn], 7, 1, []⟩)]
      ⟨[txIn], 7, 1, []⟩ [] () () () () false 100 200 (by decide)).1,
   (Default_touches_only_general queueStream
      [(StreamType.DATA1, some ⟨[blockIn], 3, 2, []⟩),
        (StreamType.GENERAL, some ⟨[txIn], 7, 1, []⟩)]
      ⟨[txIn], 7, 1, []⟩ [] () () () () false 100 200 (by decide)).2.1⟩

/-! ## Lemmas: the resolution loop in terms of lookups -/

namespace StreamMap

variable {σ : Type}

theorem UniqueKeys_perm (l1 l2 : StreamMap σ) (hp : l1.Perm l2) (hu : l1.UniqueKeys) :
    l2.UniqueKeys :=
  ((hp.map Prod.fst).nodup_iff).1 hu

theorem find_perm (l1 l2 : StreamMap σ) (k : StreamType) (hp : l1.Perm l2)
    (hu : l1.UniqueKeys) : l1.find k = l2.find k := by
  cases hf : l1.find k with
  | some p =>
    have hm : (k, p) ∈ l2 := hp.mem_iff.1 (mem_of_find l1 k p hf)
    exact (find_of_mem l2 k p (UniqueKeys_perm l1 l2 hp hu) hm).symm
  | none =>
    have h1 : k ∉ l1.keys := (find_eq_none_iff l1 k).1 hf
    have h2 : k ∉ l2.keys := fun h => h1 ((hp.map Prod.fst).mem_iff.2 h)
    exact ((find_eq_none_iff l2 k).2 h2).symm

theorem find_some_of_mem_keys (streams : StreamMap σ) (k : StreamType)
    (hn : streams.NoNull) (hk : k ∈ streams.keys) : ∃ s, streams.find k = some (some s) := by
  cases hf : streams.find k with
  | none => exact absurd hk ((find_eq_none_iff streams k).1 hf)
  | some p =>
    have hs := isSome_of_find streams k p hn hf
    cases p with
    | none => simp at hs
    | some s => exact ⟨s, rfl⟩

end StreamMap

namespace BlockPriorityStreamPolicy

variable {σ F K : Type}

theorem FindStream_eq (exactMatch : Bool) (t : StreamType) (streams : StreamMap σ)
    (hu : streams.UniqueKeys) :
    FindStream exactMatch t streams none =
      match streams.find t with
      | some p => some (t, p)
      | none =>
        if exactMatch then none
        else (streams.find StreamType.GENERAL).map (fun p => (StreamType.GENERAL, p)) := by
  cases hf : streams.find t with
  | some p => simpa using FindStream_of_find exactMatch t streams p none hf
  | none =>
    cases exactMatch with
    | true => simpa using FindStream_exact_absent t streams none hf
    | false =>
      cases hg : streams.find StreamType.GENERAL with
      | none => simpa using FindStream_no_fallback t streams none hf hg
      | some p => simpa using FindStream_fallback t streams p none hu hf hg

theorem PushMessage_of_FindStream (enum_cast : StreamType → String) (S : Stream σ F K)
    (streams : StreamMap σ) (t k : StreamType) (s : σ) (serialisedHeader : List Nat)
    (msg : CSerializedNetMsg) (nPayloadLength nTotalSize : Nat)
    (h : FindStream (decide (t ≠ StreamType.UNKNOWN)) (ResolveType t msg) streams none =
      some (k, some s)) :
    PushMessage enum_cast S streams t serialisedHeader msg nPayloadLength nTotalSize =
      ⟨.ok (S.PushMessage s serialisedHeader msg nPayloadLength nTotalSize).bytes,
        streams.store k
          (some (S.PushMessage s serialisedHeader msg nPayloadLength nTotalSize).stream),
        [(k, StreamCall.PushMessage)]⟩ := by
  simp only [PushMessage, h]

theorem PushMessage_of_FindStream_none (enum_cast : StreamType → String) (S : Stream σ F K)
    (streams : StreamMap σ) (t : StreamType) (serialisedHeader : List Nat)
    (msg : CSerializedNetMsg) (nPayloadLength nTotalSize : Nat)
    (h : FindStream (decide (t ≠ StreamType.UNKNOWN)) (ResolveType t msg) streams none =
      none) :
    PushMessage enum_cast S streams t serialisedHeader msg nPayloadLength nTotalSize =
      ⟨.error (.runtime_error (NoStreamText enum_cast (ResolveType t msg) msg)),
        streams, []⟩ := by
  simp only [PushMessage, h]

end BlockPriorityStreamPolicy

namespace StreamMap

variable {σ : Type}

theorem NoStream_iff (streams : StreamMap σ) (k : StreamType) :
    streams.NoStream k ↔ streams.find k = none ∨ streams.find k = some none := by
  cases hf : streams.find k with
  | none => simp [NoStream, hf]
  | some q =>
    cases q with
    | none => simp [NoStream, hf]
    | some s => simp [NoStream, hf]

theorem HasNull_iff (streams : StreamMap σ) (k : StreamType) :
    streams.HasNull k ↔ streams.find k = some none := by
  cases hf : streams.find k with
  | none => simp [HasNull, hf]
  | some q =>
    cases q with
    | none => simp [HasNull, hf]
    | some s => simp [HasNull, hf]

end StreamMap

namespace BlockPriorityStreamPolicy

variable {σ F K : Type}

theorem PushMessage_of_FindStream_null (enum_cast : StreamType → String) (S : Stream σ F K)
    (streams : StreamMap σ) (t k : StreamType) (serialisedHeader : List Nat)
    (msg : CSerializedNetMsg) (nPayloadLength nTotalSize : Nat)
    (h : FindStream (decide (t ≠ StreamType.UNKNOWN)) (ResolveType t msg) streams none =
      some (k, none)) :
    PushMessage enum_cast S streams t serialisedHeader msg nPayloadLength nTotalSize =
      ⟨.error (.runtime_error (NoStreamText enum_cast (ResolveType t msg) msg)),
        streams, []⟩ := by
  simp only [PushMessage, h]

theorem PushMessage_cases (enum_cast : StreamType → String) (S : Stream σ F K)
    (streams : StreamMap σ) (t : StreamType) (serialisedHeader : List Nat)
    (msg : CSerializedNetMsg) (nPayloadLength nTotalSize : Nat)
    (hu : streams.UniqueKeys) :
    (∀ s : σ, streams.find (ResolveType t msg) = some (some s) →
      PushMessage enum_cast S streams t serialisedHeader msg nPayloadLength nTotalSize =
        ⟨.ok (S.PushMessage s serialisedHeader msg nPayloadLength nTotalSize).bytes,
          streams.store (ResolveType t msg)
            (some (S.PushMessage s serialisedHeader msg nPayloadLength nTotalSize).stream),
          [(ResolveType t msg, StreamCall.PushMessage)]⟩) ∧
    (∀ g : σ, streams.find (ResolveType t msg) = none → t = StreamType.UNKNOWN →
      streams.find StreamType.GENERAL = some (some g) →
      PushMessage enum_cast S streams t serialisedHeader msg nPayloadLength nTotalSize =
        ⟨.ok (S.PushMessage g serialisedHeader msg nPayloadLength nTotalSize).bytes,
          streams.store StreamType.GENERAL
            (some (S.PushMessage g serialisedHeader msg nPayloadLength nTotalSize).stream),
          [(StreamType.GENERAL, StreamCall.PushMessage)]⟩) ∧
    ((streams.find (ResolveType t msg) = some none ∨
        (streams.find (ResolveType t msg) = none ∧
          (t ≠ StreamType.UNKNOWN ∨ streams.find StreamType.GENERAL = none ∨
            streams.find StreamType.GENERAL = some none))) →
      PushMessage enum_cast S streams t serialisedHeader msg nPayloadLength nTotalSize =
        ⟨.error (.runtime_error (NoStreamText enum_cast (ResolveType t msg) msg)),
          streams, []⟩) := by
  refine ⟨?_, ?_, ?_⟩
  · intro s hs
    exact PushMessage_of_FindStream enum_cast S streams t _ s _ _ _ _
      (FindStream_of_find _ _ streams (some s) none hs)
  · intro g hl ht hg
    apply PushMessage_of_FindStream
    subst ht
    simpa using FindStream_fallback _ streams (some g) none hu hl hg
  · rintro (hnull | ⟨hl, h⟩)
    · exact PushMessage_of_FindStream_null enum_cast S streams t (ResolveType t msg) _ _ _ _
        (FindStream_of_find _ _ streams none none hnull)
    · by_cases ht : t = StreamType.UNKNOWN
      · subst ht
        rcases h with h | h | h
        · exact absurd rfl h
        · apply PushMessage_of_FindStream_none
          simpa using FindStream_no_fallback _ streams none hl h
        · apply PushMessage_of_FindStream_null enum_cast S streams _ StreamType.GENERAL
          simpa using FindStream_fallback _ streams none none hu hl h
      · apply PushMessage_of_FindStream_none
        simpa [ht] using FindStream_exact_absent _ streams none hl

end BlockPriorityStreamPolicy

/-! ## Theorems: the send resolution -/

namespace BlockPriorityStreamPolicy

variable {σ F K : Type}

/-- C14, as stated, fails: on the stream set {GENERAL: a stream, DATA1:
null handle} a ping with no explicit identifier looks for DATA1, finds the
key, and throws because the handle is null, although no explicit
identifier was given and both DATA1 and GENERAL are keys of the set. -/
theorem PushMessage_fails_on_null_preferred :
    StreamMap.count [(StreamType.GENERAL, some (idle 0 0)), (StreamType.DATA1, none)]
      StreamType.DATA1 = 1 ∧
    StreamMap.Has [(StreamType.GENERAL, some (idle 0 0)), (StreamType.DATA1, none)]
      StreamType.GENERAL (idle 0 0) ∧
    ResolveType StreamType.UNKNOWN pingMsg = StreamType.DATA1 ∧
    PushMessage streamTypeName queueStream
        [(StreamType.GENERAL, some (idle 0 0)), (StreamType.DATA1, none)]
        StreamType.UNKNOWN [] pingMsg 0 24 =
      ⟨.error (.runtime_error "No stream avilable of type DATA1 for message of type ping"),
        [(StreamType.GENERAL, some (idle 0 0)), (StreamType.DATA1, none)], []⟩ :=
  ⟨rfl, rfl, rfl, rfl⟩

/-- C14, amended: exact characterisation of the send resolution. Let `p`
be the explicit identifier if it is not `UNKNOWN`, otherwise DATA1 for a
HighPriority command and GENERAL for a Normal one. For every stream set: if
`p` is bound to a stream in the set that stream is selected; otherwise, if
no explicit identifier was given, `p` is not a key of the set and GENERAL
is bound to a stream in the set, the GENERAL stream is selected; otherwise
the call fails with a thrown `runtime_error`. The call fails exactly when
an explicit identifier was given and is bound to no stream in the set, or
none was given and either `p` is bound to a null handle, or `p` is not a
key of the set and GENERAL is bound to no stream in the set. (Bound to no
stream: the key is absent or its handle is null.) -/
theorem PushMessage_resolution (enum_cast : StreamType → String) (S : Stream σ F K)
    (streams : StreamMap σ) (t : StreamType) (serialisedHeader : List Nat)
    (msg : CSerializedNetMsg) (nPayloadLength nTotalSize : Nat)
    (hu : streams.UniqueKeys) :
    (ResolveType t msg =
      if t ≠ StreamType.UNKNOWN then t
      else if IsHighPriorityMsg msg.Command then StreamType.DATA1
      else StreamType.GENERAL) ∧
    (∀ s : σ, streams.Has (ResolveType t msg) s →
      PushMessage enum_cast S streams t serialisedHeader msg nPayloadLength nTotalSize =
        ⟨.ok (S.PushMessage s serialisedHeader msg nPayloadLength nTotalSize).bytes,
          streams.store (ResolveType t msg)
            (some (S.PushMessage s serialisedHeader msg nPayloadLength nTotalSize).stream),
          [(ResolveType t msg, StreamCall.PushMessage)]⟩) ∧
    (∀ g : σ, streams.Lacks (ResolveType t msg) → t = StreamType.UNKNOWN →
      streams.Has StreamType.GENERAL g →
      PushMessage enum_cast S streams t serialisedHeader msg nPayloadLength nTotalSize =
        ⟨.ok (S.PushMessage g serialisedHeader msg nPayloadLength nTotalSize).bytes,
          streams.store StreamType.GENERAL
            (some (S.PushMessage g serialisedHeader msg nPayloadLength nTotalSize).stream),
          [(StreamType.GENERAL, StreamCall.PushMessage)]⟩) ∧
    (streams.NoStream (ResolveType t msg) →
      (t ≠ StreamType.UNKNOWN ∨ streams.HasNull (ResolveType t msg) ∨
        streams.NoStream StreamType.GENERAL) →
      PushMessage enum_cast S streams t serialisedHeader msg nPayloadLength nTotalSize =
        ⟨.error (.runtime_error (NoStreamText enum_cast (ResolveType t msg) msg)),
          streams, []⟩) ∧
    ((∃ f, (PushMessage enum_cast S streams t serialisedHeader msg nPayloadLength
          nTotalSize).result = .error f) ↔
      (t ≠ StreamType.UNKNOWN ∧ streams.NoStream t) ∨
      (t = StreamType.UNKNOWN ∧
        (streams.HasNull (ResolveType t msg) ∨
          (streams.Lacks (ResolveType t msg) ∧ streams.NoStream StreamType.GENERAL)))) := by
  have hres : ResolveType t msg =
      if t ≠ StreamType.UNKNOWN then t
      else if IsHighPriorityMsg msg.Command then StreamType.DATA1
      else StreamType.GENERAL := by
    by_cases ht : t = StreamType.UNKNOWN
    · subst ht
      simp [ResolveType]
    · simp [ResolveType, ht]
  obtain ⟨h1, h2, h3⟩ := PushMessage_cases enum_cast S streams t serialisedHeader msg
    nPayloadLength nTotalSize hu
  have h3b : streams.NoStream (ResolveType t msg) →
      (t ≠ StreamType.UNKNOWN ∨ streams.HasNull (ResolveType t msg) ∨
        streams.NoStream StreamType.GENERAL) →
      PushMessage enum_cast S streams t serialisedHeader msg nPayloadLength nTotalSize =
        ⟨.error (.runtime_error (NoStreamText enum_cast (ResolveType t msg) msg)),
          streams, []⟩ := by
    intro hns h
    apply h3
    rcases (StreamMap.NoStream_iff streams _).1 hns with hl | hnull
    · right
      refine ⟨hl, ?_⟩
      rcases h with h | h | h
      · exact Or.inl h
      · rw [StreamMap.HasNull_iff, hl] at h
        simp at h
      · exact Or.inr ((StreamMap.NoStream_iff streams _).1 h)
    · exact Or.inl hnull
  refine ⟨hres, h1, h2, h3b, ?_⟩
  constructor
  · rintro ⟨f, hf⟩
    cases hp : streams.find (ResolveType t msg) with
    | some q =>
      cases q with
      | some s =>
        rw [h1 s hp] at hf
        simp at hf
      | none =>
        by_cases ht : t = StreamType.UNKNOWN
        · exact Or.inr ⟨ht, Or.inl ((StreamMap.HasNull_iff streams _).2 hp)⟩
        · left
          refine ⟨ht, (StreamMap.NoStream_iff streams _).2 (Or.inr ?_)⟩
          rw [ResolveType_explicit t msg ht] at hp
          exact hp
    | none =>
      by_cases ht : t = StreamType.UNKNOWN
      · right
        refine ⟨ht, Or.inr ⟨hp, ?_⟩⟩
        cases hg : streams.find StreamType.GENERAL with
        | none => exact (StreamMap.NoStream_iff streams _).2 (Or.inl hg)
        | some q =>
          cases q with
          | none => exact (StreamMap.NoStream_iff streams _).2 (Or.inr hg)
          | some g =>
            rw [h2 g hp ht hg] at hf
            simp at hf
      · left
        refine ⟨ht, (StreamMap.NoStream_iff streams _).2 (Or.inl ?_)⟩
        rw [ResolveType_explicit t msg ht] at hp
        exact hp
  · rintro (⟨ht, hns⟩ | ⟨ht, hnull | ⟨hl, hns⟩⟩)
    · rw [← ResolveType_explicit t msg ht] at hns
      rw [h3b hns (Or.inl ht)]
      exact ⟨_, rfl⟩
    · have hns : streams.NoStream (ResolveType t msg) :=
        (StreamMap.NoStream_iff streams _).2
          (Or.inr ((StreamMap.HasNull_iff streams _).1 hnull))
      rw [h3b hns (Or.inr (Or.inl hnull))]
      exact ⟨_, rfl⟩
    · have hns2 : streams.NoStream (ResolveType t msg) :=
        (StreamMap.NoStream_iff streams _).2 (Or.inl hl)
      rw [h3b hns2 (Or.inr (Or.inr hns))]
      exact ⟨_, rfl⟩

/-- Witness of C14, amended: a Normal message with no explicit identifier
fails on the non-empty stream set {DATA1}. -/
theorem PushMessage_resolution_witness :
    PushMessage streamTypeName queueStream [(StreamType.DATA1, some (idle 0 0))]
        StreamType.UNKNOWN [] txMsg 3 27 =
      ⟨.error (.runtime_error "No stream avilable of type GENERAL for message of type tx"),
        [(StreamType.DATA1, some (idle 0 0))], []⟩ :=
  (PushMessage_resolution streamTypeName queueStream [(StreamType.DATA1, some (idle 0 0))]
    StreamType.UNKNOWN [] txMsg 3 27 (by decide)).2.2.2.1
    (by decide) (Or.inr (Or.inr (by decide)))

/-- C15: exact match beats fallback regardless of encounter order. For
every two listings of the same entries (unique keys) the resolution loop
selects the same stream, so `PushMessage` has the same result and makes the
same call; when the identifier looked for is present it is selected in
both listings, and a GENERAL fallback is selected only when the identifier
looked for is absent from the whole set. -/
theorem FindStream_order_independent (enum_cast : StreamType → String) (S : Stream σ F K)
    (l1 l2 : StreamMap σ) (exactMatch : Bool) (t : StreamType)
    (streamType : StreamType) (serialisedHeader : List Nat)
    (msg : CSerializedNetMsg) (nPayloadLength nTotalSize : Nat)
    (hp : l1.Perm l2) (hu : l1.UniqueKeys) :
    FindStream exactMatch t l1 none = FindStream exactMatch t l2 none ∧
    (∀ p, l1.find t = some p →
      FindStream exactMatch t l1 none = some (t, p) ∧
      FindStream exactMatch t l2 none = some (t, p)) ∧
    (∀ q, t ≠ StreamType.GENERAL →
      FindStream exactMatch t l1 none = some (StreamType.GENERAL, q) →
      l1.Lacks t ∧ l2.Lacks t) ∧
    (PushMessage enum_cast S l1 streamType serialisedHeader msg nPayloadLength
        nTotalSize).result =
      (PushMessage enum_cast S l2 streamType serialisedHeader msg nPayloadLength
        nTotalSize).result ∧
    (PushMessage enum_cast S l1 streamType serialisedHeader msg nPayloadLength
        nTotalSize).calls =
      (PushMessage enum_cast S l2 streamType serialisedHeader msg nPayloadLength
        nTotalSize).calls := by
  have hu2 := StreamMap.UniqueKeys_perm l1 l2 hp hu
  have hfind : ∀ k, l1.find k = l2.find k := fun k => StreamMap.find_perm l1 l2 k hp hu
  have hall : ∀ (e : Bool) (k : StreamType),
      FindStream e k l1 none = FindStream e k l2 none := by
    intro e k
    rw [FindStream_eq e k l1 hu, FindStream_eq e k l2 hu2, hfind k,
      hfind StreamType.GENERAL]
  refine ⟨hall _ _, ?_, ?_, ?_, ?_⟩
  · intro p hf
    exact ⟨FindStream_of_find _ _ l1 p none hf,
      FindStream_of_find _ _ l2 p none ((hfind t).symm.trans hf)⟩
  · intro q ht hsel
    cases hf : l1.find t with
    | some p =>
      rw [FindStream_of_find _ _ l1 p none hf] at hsel
      simp only [Option.some.injEq, Prod.mk.injEq] at hsel
      exact absurd hsel.1 ht
    | none => exact ⟨hf, (hfind t).symm.trans hf⟩
  · simp only [PushMessage, hall]
    split <;> rfl
  · simp only [PushMessage, hall]
    split <;> rfl

/-- Witness of C15: with DATA1 looked for and no exact match requested, the
DATA1 entry is selected whether GENERAL is listed before or after it. -/
theorem FindStream_order_independent_witness :
    FindStream false StreamType.DATA1
        [(StreamType.GENERAL, some (idle 1 1)), (StreamType.DATA1, some (idle 2 2))] none =
      some (StreamType.DATA1, some (idle 2 2)) ∧
    FindStream false StreamType.DATA1
        [(StreamType.DATA1, some (idle 2 2)), (StreamType.GENERAL, some (idle 1 1))] none =
      some (StreamType.DATA1, some (idle 2 2)) :=
  (FindStream_order_independent streamTypeName queueStream
    [(StreamType.GENERAL, some (idle 1 1)), (StreamType.DATA1, some (idle 2 2))]
    [(StreamType.DATA1, some (idle 2 2)), (StreamType.GENERAL, some (idle 1 1))]
    false StreamType.DATA1 StreamType.UNKNOWN [] pingMsg 0 24
    (List.Perm.swap _ _ _) (by decide)).2.1 (some (idle 2 2)) (by decide)

end BlockPriorityStreamPolicy

/-! ## Theorems: fall-through of the receive path -/

namespace BlockPriorityStreamPolicy

variable {σ F K : Type}

end BlockPriorityStreamPolicy

/-! ## Lemmas: routing as a function of the available identifiers -/

theorem ResolveSpec_congr (t : StreamType) (highPriority : Bool) (a b : List StreamType)
    (h : ∀ k, k ∈ a ↔ k ∈ b) : ResolveSpec t highPriority a = ResolveSpec t highPriority b := by
  simp only [ResolveSpec, h]

theorem ResolveSpec_explicit (t : StreamType) (h1 h2 : Bool) (a : List StreamType)
    (ht : t ≠ StreamType.UNKNOWN) : ResolveSpec t h1 a = ResolveSpec t h2 a := by
  simp [ResolveSpec, ht]

namespace BlockPriorityStreamPolicy

variable {σ F K : Type}

theorem PushMessage_refines_ResolveSpec (enum_cast : StreamType → String)
    (S : Stream σ F K) (streams : StreamMap σ) (t : StreamType)
    (serialisedHeader : List Nat) (msg : CSerializedNetMsg)
    (nPayloadLength nTotalSize : Nat) (hu : streams.UniqueKeys) (hn : streams.NoNull) :
    (PushMessage enum_cast S streams t serialisedHeader msg nPayloadLength
        nTotalSize).calls =
      (ResolveSpec t (IsHighPriorityMsg msg.Command) streams.keys).toList.map
        (fun k => (k, StreamCall.PushMessage)) ∧
    (PushMessage enum_cast S streams t serialisedHeader msg nPayloadLength
        nTotalSize).result.isOk =
      (ResolveSpec t (IsHighPriorityMsg msg.Command) streams.keys).isSome := by
  have hnot : ∀ k, k ∉ streams.keys → streams.find k = none :=
    fun k hk => (StreamMap.find_eq_none_iff streams k).2 hk
  by_cases ht : t = StreamType.UNKNOWN
  · subst ht
    have hres := ResolveType_unknown msg
    by_cases hpk : (if IsHighPriorityMsg msg.Command then StreamType.DATA1
        else StreamType.GENERAL) ∈ streams.keys
    · obtain ⟨s, hs⟩ := StreamMap.find_some_of_mem_keys streams _ hn hpk
      rw [← hres] at hs
      rw [PushMessage_of_FindStream enum_cast S streams _ _ s _ _ _ _
        (FindStream_of_find _ _ streams (some s) none hs), hres]
      simp [ResolveSpec, hpk, Except.isOk, Except.toBool]
    · have hl : streams.find (ResolveType StreamType.UNKNOWN msg) = none := by
        rw [hres]
        exact hnot _ hpk
      by_cases hg : StreamType.GENERAL ∈ streams.keys
      · obtain ⟨g, hgs⟩ := StreamMap.find_some_of_mem_keys streams _ hn hg
        rw [PushMessage_of_FindStream enum_cast S streams _ _ g _ _ _ _
          (by simpa using FindStream_fallback _ streams (some g) none hu hl hgs)]
        simp [ResolveSpec, hpk, hg, Except.isOk, Except.toBool]
      · rw [PushMessage_of_FindStream_none enum_cast S streams _ _ _ _ _
          (by simpa using FindStream_no_fallback _ streams none hl (hnot _ hg))]
        simp [ResolveSpec, hpk, hg, Except.isOk, Except.toBool]
  · have hres := ResolveType_explicit t msg ht
    by_cases hpk : t ∈ streams.keys
    · obtain ⟨s, hs⟩ := StreamMap.find_some_of_mem_keys streams _ hn hpk
      rw [← hres] at hs
      rw [PushMessage_of_FindStream enum_cast S streams _ _ s _ _ _ _
        (FindStream_of_find _ _ streams (some s) none hs), hres]
      simp [ResolveSpec, ht, hpk, Except.isOk, Except.toBool]
    · have hl : streams.find (ResolveType t msg) = none := by
        rw [hres]
        exact hnot _ hpk
      rw [PushMessage_of_FindStream_none enum_cast S streams _ _ _ _ _
        (by simpa [ht] using FindStream_exact_absent _ streams none hl)]
      simp [ResolveSpec, ht, hpk, Except.isOk, Except.toBool]

theorem PushMessage_error_text (enum_cast : StreamType → String) (S : Stream σ F K)
    (streams : StreamMap σ) (t : StreamType) (serialisedHeader : List Nat)
    (msg : CSerializedNetMsg) (nPayloadLength nTotalSize : Nat) (f : Fault)
    (hf : (PushMessage enum_cast S streams t serialisedHeader msg nPayloadLength
      nTotalSize).result = .error f) :
    f = .runtime_error (NoStreamText enum_cast (ResolveType t msg) msg) := by
  unfold PushMessage at hf
  simp only at hf
  split at hf
  · simp only [Except.error.injEq] at hf
    exact hf.symm
  · simp only [Except.error.injEq] at hf
    exact hf.symm
  · simp at hf

theorem FindStream_key (exactMatch : Bool) (t : StreamType) (streams : StreamMap σ)
    (d : Option (StreamType × StreamPtr σ)) (x : StreamType × StreamPtr σ)
    (h : FindStream exactMatch t streams d = some x) :
    x.1 = t ∨ x.1 = StreamType.GENERAL ∨ d = some x := by
  induction streams generalizing d with
  | nil => exact Or.inr (Or.inr h)
  | cons e rest ih =>
    obtain ⟨k, q⟩ := e
    simp only [FindStream] at h
    split at h
    · rename_i hk
      simp only [Option.some.injEq] at h
      exact Or.inl (by rw [← h]; exact hk)
    · split at h
      · rename_i hk
        simp only [Bool.and_eq_true, decide_eq_true_eq] at hk
        rcases ih _ h with h1 | h1 | h1
        · exact Or.inl h1
        · exact Or.inr (Or.inl h1)
        · simp only [Option.some.injEq] at h1
          exact Or.inr (Or.inl (by rw [← h1]; exact hk.2))
      · exact ih _ h

end BlockPriorityStreamPolicy

namespace StreamMap

variable {σ : Type}

theorem status_eq_of_keys_and_nulls (streams1 streams2 : StreamMap σ)
    (hk : ∀ k, k ∈ streams1.keys ↔ k ∈ streams2.keys)
    (hnull : ∀ k, streams1.HasNull k ↔ streams2.HasNull k) (k : StreamType) :
    (streams1.find k).map Option.isSome = (streams2.find k).map Option.isSome := by
  cases h1 : streams1.find k with
  | none =>
    have hk2 : k ∉ streams2.keys :=
      fun h => (find_eq_none_iff streams1 k).1 h1 ((hk k).2 h)
    rw [(find_eq_none_iff streams2 k).2 hk2]
  | some q =>
    cases q with
    | none =>
      have h2 := (hnull k).1 ((HasNull_iff streams1 k).2 h1)
      rw [HasNull] at h2
      rw [h2]
      rfl
    | some s =>
      have hk1 : k ∈ streams1.keys := by
        by_contra hc
        rw [(find_eq_none_iff streams1 k).2 hc] at h1
        simp at h1
      cases h2 : streams2.find k with
      | none => exact absurd ((hk k).1 hk1) ((find_eq_none_iff streams2 k).1 h2)
      | some q2 =>
        cases q2 with
        | none =>
          have h3 := (HasNull_iff streams1 k).1 ((hnull k).2 ((HasNull_iff streams2 k).2 h2))
          rw [h1] at h3
          simp at h3
        | some s2 => rfl

end StreamMap

namespace BlockPriorityStreamPolicy

variable {σ F K : Type}

theorem PushMessage_calls_of_status (enum_cast : StreamType → String) (S : Stream σ F K)
    (streams : StreamMap σ) (t : StreamType) (serialisedHeader : List Nat)
    (msg : CSerializedNetMsg) (nPayloadLength nTotalSize : Nat)
    (hu : streams.UniqueKeys) :
    (PushMessage enum_cast S streams t serialisedHeader msg nPayloadLength
        nTotalSize).calls =
      (if (streams.find (ResolveType t msg)).map Option.isSome = some true then
        [(ResolveType t msg, StreamCall.PushMessage)]
      else if (streams.find (ResolveType t msg)).map Option.isSome = none ∧
          t = StreamType.UNKNOWN ∧
          (streams.find StreamType.GENERAL).map Option.isSome = some true then
        [(StreamType.GENERAL, StreamCall.PushMessage)]
      else []) ∧
    (PushMessage enum_cast S streams t serialisedHeader msg nPayloadLength
        nTotalSize).result.isOk =
      (decide ((streams.find (ResolveType t msg)).map Option.isSome = some true) ||
        decide ((streams.find (ResolveType t msg)).map Option.isSome = none ∧
          t = StreamType.UNKNOWN ∧
          (streams.find StreamType.GENERAL).map Option.isSome = some true)) := by
  obtain ⟨h1, h2, h3⟩ := PushMessage_cases enum_cast S streams t serialisedHeader msg
    nPayloadLength nTotalSize hu
  cases hp : streams.find (ResolveType t msg) with
  | some q =>
    cases q with
    | some s =>
      rw [h1 s hp]
      simp [Except.isOk, Except.toBool]
    | none =>
      rw [h3 (Or.inl hp)]
      simp [Except.isOk, Except.toBool]
  | none =>
    by_cases ht : t = StreamType.UNKNOWN
    · cases hg : streams.find StreamType.GENERAL with
      | none =>
        rw [h3 (Or.inr ⟨hp, Or.inr (Or.inl hg)⟩)]
        simp [Except.isOk, Except.toBool]
      | some q =>
        cases q with
        | none =>
          rw [h3 (Or.inr ⟨hp, Or.inr (Or.inr hg)⟩)]
          simp [Except.isOk, Except.toBool]
        | some g =>
          rw [h2 g hp ht hg]
          simp [Except.isOk, Except.toBool, ht]
    · rw [h3 (Or.inr ⟨hp, Or.inl ht⟩)]
      simp [Except.isOk, Except.toBool, ht]

end BlockPriorityStreamPolicy

/-! ## Theorems: routing as a pure function, the error text, and default routing -/

namespace BlockPriorityStreamPolicy

variable {σ F K : Type}

/-- C17, as stated, fails: the stream sets {GENERAL, DATA1} and {GENERAL,
DATA1: null handle} have the same key set, yet the same ping with no
explicit identifier is sent on DATA1 with the first and fails with the
second. -/
theorem PushMessage_routing_depends_on_null_handle :
    StreamMap.keys [(StreamType.GENERAL, some (idle 0 0)), (StreamType.DATA1, some (idle 0 0))] =
      StreamMap.keys [(StreamType.GENERAL, some (idle 0 0)), (StreamType.DATA1, none)] ∧
    (PushMessage streamTypeName queueStream
        [(StreamType.GENERAL, some (idle 0 0)), (StreamType.DATA1, some (idle 0 0))]
        StreamType.UNKNOWN [] pingMsg 0 24).calls =
      [(StreamType.DATA1, StreamCall.PushMessage)] ∧
    (PushMessage streamTypeName queueStream
        [(StreamType.GENERAL, some (idle 0 0)), (StreamType.DATA1, none)]
        StreamType.UNKNOWN [] pingMsg 0 24).calls = [] ∧
    (PushMessage streamTypeName queueStream
        [(StreamType.GENERAL, some (idle 0 0)), (StreamType.DATA1, none)]
        StreamType.UNKNOWN [] pingMsg 0 24).result =
      .error (.runtime_error "No stream avilable of type DATA1 for message of type ping") :=
  ⟨rfl, rfl, rfl, rfl⟩

/-- C17, amended: routing is a pure function of the explicit identifier,
the message's priority class, the set of available identifiers and which
of them are bound to a null handle. Two calls with the same explicit
identifier, the same key set with the same identifiers bound to null
handles, and messages of the same class select the same stream identifier
or both fail, whatever the payload, header, sizes, streams' behaviour and
the command within the class; with an explicit identifier the command does
not matter at all. On a stream set with no null handle the stream sent on
(or the failure) is `ResolveSpec` of the explicit identifier, the class and
the key set. -/
theorem PushMessage_routing_pure (enum_cast1 enum_cast2 : StreamType → String)
    (S1 S2 : Stream σ F K) (streams1 streams2 : StreamMap σ) (t : StreamType)
    (header1 header2 : List Nat) (msg1 msg2 : CSerializedNetMsg)
    (nPayloadLength1 nPayloadLength2 nTotalSize1 nTotalSize2 : Nat)
    (hu1 : streams1.UniqueKeys) (hu2 : streams2.UniqueKeys)
    (hk : ∀ k, k ∈ streams1.keys ↔ k ∈ streams2.keys)
    (hnull : ∀ k, streams1.HasNull k ↔ streams2.HasNull k) :
    ((IsHighPriorityMsg msg1.Command = IsHighPriorityMsg msg2.Command ∨
        t ≠ StreamType.UNKNOWN) →
      (PushMessage enum_cast1 S1 streams1 t header1 msg1 nPayloadLength1
          nTotalSize1).calls =
        (PushMessage enum_cast2 S2 streams2 t header2 msg2 nPayloadLength2
          nTotalSize2).calls ∧
      (PushMessage enum_cast1 S1 streams1 t header1 msg1 nPayloadLength1
          nTotalSize1).result.isOk =
        (PushMessage enum_cast2 S2 streams2 t header2 msg2 nPayloadLength2
          nTotalSize2).result.isOk) ∧
    (streams1.NoNull →
      (PushMessage enum_cast1 S1 streams1 t header1 msg1 nPayloadLength1
          nTotalSize1).calls =
        (ResolveSpec t (IsHighPriorityMsg msg1.Command) streams1.keys).toList.map
          (fun k => (k, StreamCall.PushMessage)) ∧
      (PushMessage enum_cast1 S1 streams1 t header1 msg1 nPayloadLength1
          nTotalSize1).result.isOk =
        (ResolveSpec t (IsHighPriorityMsg msg1.Command) streams1.keys).isSome) := by
  refine ⟨?_, fun hn1 => PushMessage_refines_ResolveSpec enum_cast1 S1 streams1 t header1
    msg1 nPayloadLength1 nTotalSize1 hu1 hn1⟩
  intro h
  have hp : ResolveType t msg1 = ResolveType t msg2 := by
    rcases h with h | h
    · simp only [ResolveType, h]
    · rw [ResolveType_explicit t msg1 h, ResolveType_explicit t msg2 h]
  have hst := StreamMap.status_eq_of_keys_and_nulls streams1 streams2 hk hnull
  have h1 := PushMessage_calls_of_status enum_cast1 S1 streams1 t header1 msg1
    nPayloadLength1 nTotalSize1 hu1
  have h2 := PushMessage_calls_of_status enum_cast2 S2 streams2 t header2 msg2
    nPayloadLength2 nTotalSize2 hu2
  rw [h1.1, h1.2, h2.1, h2.2, hp, hst (ResolveType t msg2), hst StreamType.GENERAL]
  exact ⟨rfl, rfl⟩

/-- Witness of C17, amended: a ping with an empty header on {GENERAL,
DATA1} and a block message with a header on {DATA1, GENERAL} (other
streams, other sizes) are both sent on DATA1. -/
theorem PushMessage_routing_pure_witness :
    (PushMessage streamTypeName queueStream
        [(StreamType.GENERAL, some (idle 0 0)), (StreamType.DATA1, some (idle 0 0))]
        StreamType.UNKNOWN [] pingMsg 0 24).calls =
      (PushMessage streamTypeName queueStream
        [(StreamType.DATA1, some (waiting [txIn])), (StreamType.GENERAL, some (idle 9 9))]
        StreamType.UNKNOWN [1, 2] ⟨"block", [5, 6]⟩ 2 26).calls ∧
    (PushMessage streamTypeName queueStream
        [(StreamType.GENERAL, some (idle 0 0)), (StreamType.DATA1, some (idle 0 0))]
        StreamType.UNKNOWN [] pingMsg 0 24).calls =
      [(StreamType.DATA1, StreamCall.PushMessage)] :=
  ⟨((PushMessage_routing_pure streamTypeName streamTypeName queueStream queueStream
      [(StreamType.GENERAL, some (idle 0 0)), (StreamType.DATA1, some (idle 0 0))]
      [(StreamType.DATA1, some (waiting [txIn])), (StreamType.GENERAL, some (idle 9 9))]
      StreamType.UNKNOWN [] [1, 2] pingMsg ⟨"block", [5, 6]⟩ 0 2 24 26
      (by decide) (by decide) (fun k => by simp [StreamMap.keys, or_comm])
      (fun k => by
        cases k <;> simp [StreamMap.HasNull, StreamMap.find])).1
      (Or.inl (by decide))).1,
   ((PushMessage_routing_pure streamTypeName streamTypeName queueStream queueStream
      [(StreamType.GENERAL, some (idle 0 0)), (StreamType.DATA1, some (idle 0 0))]
      [(StreamType.DATA1, some (waiting [txIn])), (StreamType.GENERAL, some (idle 9 9))]
      StreamType.UNKNOWN [] [1, 2] pingMsg ⟨"block", [5, 6]⟩ 0 2 24 26
      (by decide) (by decide) (fun k => by simp [StreamMap.keys, or_comm])
      (fun k => by
        cases k <;> simp [StreamMap.HasNull, StreamMap.find])).2 (by decide)).1⟩

/-- C18: the error raised by `PushMessage` names both the stream type that
was looked for and the message's command. For every failing call the
fault is a `runtime_error` whose text is "No stream avilable of type ",
the string form of the resolved stream type, " for message of type " and
the command; so it contains both. The resolved type is the explicit
identifier when one was given, otherwise DATA1 or GENERAL by the class of
the message. -/
theorem PushMessage_error_names_type_and_command (enum_cast : StreamType → String)
    (S : Stream σ F K) (streams : StreamMap σ) (t : StreamType)
    (serialisedHeader : List Nat) (msg : CSerializedNetMsg)
    (nPayloadLength nTotalSize : Nat) (f : Fault)
    (hf : (PushMessage enum_cast S streams t serialisedHeader msg nPayloadLength
      nTotalSize).result = .error f) :
    f = .runtime_error ("No stream avilable of type " ++ enum_cast (ResolveType t msg) ++
      " for message of type " ++ msg.Command) ∧
    (∃ pre post, f = .runtime_error (pre ++ enum_cast (ResolveType t msg) ++ post)) ∧
    (∃ pre post, f = .runtime_error (pre ++ msg.Command ++ post)) ∧
    (t ≠ StreamType.UNKNOWN → ResolveType t msg = t) ∧
    (t = StreamType.UNKNOWN → ResolveType t msg =
      if IsHighPriorityMsg msg.Command then StreamType.DATA1 else StreamType.GENERAL) := by
  have h := PushMessage_error_text enum_cast S streams t serialisedHeader msg
    nPayloadLength nTotalSize f hf
  refine ⟨h, ⟨"No stream avilable of type ", " for message of type " ++ msg.Command, ?_⟩,
    ⟨"No stream avilable of type " ++ enum_cast (ResolveType t msg) ++
      " for message of type ", "", ?_⟩, ResolveType_explicit t msg, ?_⟩
  · rw [h, NoStreamText, String.append_assoc]
  · rw [h, NoStreamText, String.append_empty]
  · intro ht
    subst ht
    exact ResolveType_unknown msg

/-- Witness of C18: a ping explicitly requested on a stream type absent
from {GENERAL} fails with a text naming that type and "ping". -/
theorem PushMessage_error_names_type_and_command_witness :
    (PushMessage streamTypeName queueStream [(StreamType.GENERAL, some (idle 0 0))]
        (StreamType.OTHER 3) [] pingMsg 0 24).result =
      .error (.runtime_error "No stream avilable of type OTHER for message of type ping") ∧
    Fault.runtime_error "No stream avilable of type OTHER for message of type ping" =
      .runtime_error ("No stream avilable of type " ++
        streamTypeName (ResolveType (StreamType.OTHER 3) pingMsg) ++
        " for message of type " ++ pingMsg.Command) :=
  ⟨rfl, (PushMessage_error_names_type_and_command streamTypeName queueStream
      [(StreamType.GENERAL, some (idle 0 0))] (StreamType.OTHER 3) [] pingMsg 0 24
      (.runtime_error "No stream avilable of type OTHER for message of type ping") rfl).1⟩

/-- C19: low-priority traffic never occupies a supplementary stream by
default. For every stream set and every message with no explicit
identifier, a successful `PushMessage` invokes send on exactly one stream,
whose key is in the stream set; for a Normal message that key is GENERAL,
for a HighPriority message it is DATA1 or GENERAL. -/
theorem PushMessage_default_routing (enum_cast : StreamType → String) (S : Stream σ F K)
    (streams : StreamMap σ) (serialisedHeader : List Nat) (msg : CSerializedNetMsg)
    (nPayloadLength nTotalSize : Nat) (n : Nat)
    (hok : (PushMessage enum_cast S streams StreamType.UNKNOWN serialisedHeader msg
      nPayloadLength nTotalSize).result = .ok n) :
    ∃ k, (PushMessage enum_cast S streams StreamType.UNKNOWN serialisedHeader msg
        nPayloadLength nTotalSize).calls = [(k, StreamCall.PushMessage)] ∧
      k ∈ streams.keys ∧
      (IsHighPriorityMsg msg.Command = false → k = StreamType.GENERAL) ∧
      (IsHighPriorityMsg msg.Command = true →
        k = StreamType.DATA1 ∨ k = StreamType.GENERAL) := by
  unfold PushMessage at hok ⊢
  simp only at hok ⊢
  split at hok
  · simp at hok
  · simp at hok
  · rename_i type s hfs
    refine ⟨type, rfl, ?_, ?_, ?_⟩
    · rcases FindStream_mem _ _ _ _ _ hfs with h1 | h1
      · exact List.mem_map.2 ⟨(type, some s), h1, rfl⟩
      · simp at h1
    · intro hp
      rcases FindStream_key _ _ _ _ _ hfs with h1 | h1 | h1
      · simpa [ResolveType, hp] using h1
      · exact h1
      · simp at h1
    · intro hp
      rcases FindStream_key _ _ _ _ _ hfs with h1 | h1 | h1
      · left
        simpa [ResolveType, hp] using h1
      · exact Or.inr h1
      · simp at h1

/-- Witness of C19: on {DATA1, GENERAL} a transaction with no explicit
identifier is sent on GENERAL, not on DATA1. -/
theorem PushMessage_default_routing_witness :
    ∃ k, (PushMessage streamTypeName queueStream
        [(StreamType.DATA1, some (idle 0 0)), (StreamType.GENERAL, some (idle 0 0))]
        StreamType.UNKNOWN [] txMsg 3 27).calls = [(k, StreamCall.PushMessage)] ∧
      k ∈ StreamMap.keys
        [(StreamType.DATA1, some (idle 0 0)), (StreamType.GENERAL, some (idle 0 0))] ∧
      (IsHighPriorityMsg txMsg.Command = false → k = StreamType.GENERAL) ∧
      (IsHighPriorityMsg txMsg.Command = true →
        k = StreamType.DATA1 ∨ k = StreamType.GENERAL) :=
  PushMessage_default_routing streamTypeName queueStream
    [(StreamType.DATA1, some (idle 0 0)), (StreamType.GENERAL, some (idle 0 0))]
    [] txMsg 3 27 27 rfl

end BlockPriorityStreamPolicy

/-! ## Theorems: the got-new-messages flag -/

namespace BlockPriorityStreamPolicy

variable {σ F K : Type}

theorem ServiceEach_flag (S : Stream σ F K) (setRecv setSend setError : F) (config : K)
    (streams : StreamMap σ) (gotNewMsgs : Bool) (bytesRecv bytesSent : Nat)
    (hn : streams.NoNull) :
    ∃ r t, (ServiceEach S setRecv setSend setError config streams gotNewMsgs bytesRecv
        bytesSent).result =
      .ok (((ServicedResults S setRecv setSend setError config streams gotNewMsgs).map
        ServiceResult.gotNewMsgs).getLastD gotNewMsgs, r, t) := by
  induction streams generalizing gotNewMsgs bytesRecv bytesSent with
  | nil => exact ⟨bytesRecv, bytesSent, rfl⟩
  | cons e rest ih =>
    obtain ⟨k, p⟩ := e
    have hrest : StreamMap.NoNull rest := fun x hx => hn x (List.mem_cons_of_mem _ hx)
    have hp : p.isSome = true := hn (k, p) (List.mem_cons_self _ _)
    cases p with
    | none => simp at hp
    | some s =>
      simp only [ServiceEach, ServicedResults, List.map_cons, List.getLastD_cons]
      exact ih _ _ _ hrest

theorem ServicedResults_flag_iff (S : Stream σ F K) (setRecv setSend setError : F)
    (config : K) (streams : StreamMap σ) (gotNewMsgs : Bool)
    (hmono : ∀ s, (S.ServiceSocket s setRecv setSend setError config true 0 0).gotNewMsgs
      = true) :
    ((ServicedResults S setRecv setSend setError config streams gotNewMsgs).map
        ServiceResult.gotNewMsgs).getLastD gotNewMsgs = true ↔
      gotNewMsgs = true ∨
      ∃ x ∈ ServicedResults S setRecv setSend setError config streams gotNewMsgs,
        x.gotNewMsgs = true := by
  induction streams generalizing gotNewMsgs with
  | nil => simp [ServicedResults]
  | cons e rest ih =>
    obtain ⟨k, p⟩ := e
    cases p with
    | none =>
      simp only [ServicedResults]
      exact ih gotNewMsgs
    | some s =>
      simp only [ServicedResults, List.map_cons, List.getLastD_cons, List.mem_cons,
        exists_eq_or_imp]
      rw [ih]
      constructor
      · intro h
        exact Or.inr h
      · rintro (h | h)
        · left
          rw [h]
          exact hmono s
        · exact h

/-- C20, as stated, fails: the streams of `queueStream` never clear a
raised flag, and on the stream set {GENERAL: a transaction waiting, DATA1:
null handle} the GENERAL stream raises the flag; yet the loop then calls
through the null handle and faults, so the call yields no flag at all. -/
theorem ServiceSockets_flag_lost_on_null_handle :
    (∀ s, (queueStream.ServiceSocket s () () () () true 0 0).gotNewMsgs = true) ∧
    (queueStream.ServiceSocket (waiting [txIn]) () () () () false 0 0).gotNewMsgs = true ∧
    (ServiceSockets queueStream
        [(StreamType.GENERAL, some (waiting [txIn])), (StreamType.DATA1, none)]
        () () () () false 0 0).result = .error .null_dereference :=
  ⟨fun _ => rfl, rfl, rfl⟩

/-- C20, amended: the got-new-messages flag of `ServiceSockets` is threaded
through every stream in iteration order, each stream receiving the flag as
the stream before it left it. Provided the stream set has no null handle
and a stream's servicing never clears a raised flag, the flag after the
call is true if and only if it was true on entry or at least one stream of
the set raised it; on the empty set it is unchanged. -/
theorem ServiceSockets_flag_threaded (S : Stream σ F K) (setRecv setSend setError : F)
    (config : K) (streams : StreamMap σ) (gotNewMsgs : Bool) (bytesRecv bytesSent : Nat)
    (hn : streams.NoNull)
    (hmono : ∀ s, (S.ServiceSocket s setRecv setSend setError config true 0 0).gotNewMsgs
      = true) :
    (∃ flag r t, (ServiceSockets S streams setRecv setSend setError config gotNewMsgs
          bytesRecv bytesSent).result = .ok (flag, r, t) ∧
      (flag = true ↔ gotNewMsgs = true ∨
        ∃ x ∈ ServicedResults S setRecv setSend setError config streams gotNewMsgs,
          x.gotNewMsgs = true)) ∧
    (∀ (k : StreamType) (s : σ) (rest : StreamMap σ),
      (ServiceSockets S ((k, some s) :: rest) setRecv setSend setError config gotNewMsgs
          bytesRecv bytesSent).result =
        (ServiceSockets S rest setRecv setSend setError config
          (S.ServiceSocket s setRecv setSend setError config gotNewMsgs 0 0).gotNewMsgs
          ((bytesRecv + (S.ServiceSocket s setRecv setSend setError config gotNewMsgs
            0 0).bytesRecv) % SIZE_MOD)
          ((bytesSent + (S.ServiceSocket s setRecv setSend setError config gotNewMsgs
            0 0).bytesSent) % SIZE_MOD)).result) ∧
    ServiceSockets S [] setRecv setSend setError config gotNewMsgs bytesRecv bytesSent =
      ⟨.ok (gotNewMsgs, bytesRecv, bytesSent), [], []⟩ := by
  refine ⟨?_, ?_, ?_⟩
  · obtain ⟨r, t, h⟩ := ServiceEach_flag S setRecv setSend setError config streams
      gotNewMsgs bytesRecv bytesSent hn
    exact ⟨_, r, t, h,
      ServicedResults_flag_iff S setRecv setSend setError config streams gotNewMsgs hmono⟩
  · intro k s rest
    simp only [ServiceSockets, ServiceEach]
  · simp [ServiceSockets, ServiceEach]

/-- Witness of C20: with the flag false on entry, an idle GENERAL stream
and a DATA1 stream with a block waiting, the flag is true after the call;
with both streams idle it stays false. -/
theorem ServiceSockets_flag_threaded_witness :
    (ServiceSockets queueStream
        [(StreamType.GENERAL, some (idle 10 5)), (StreamType.DATA1, some (waiting [blockIn]))]
        () () () () false 0 0).result = .ok (true, 10, 5) ∧
    (ServiceSockets queueStream
        [(StreamType.GENERAL, some (idle 10 5)), (StreamType.DATA1, some (idle 3 2))]
        () () () () false 0 0).result = .ok (false, 13, 7) ∧
    ∃ flag r t, (ServiceSockets queueStream
        [(StreamType.GENERAL, some (idle 10 5)), (StreamType.DATA1, some (waiting [blockIn]))]
        () () () () false 0 0).result = .ok (flag, r, t) ∧
      (flag = true ↔ false = true ∨
        ∃ x ∈ ServicedResults queueStream () () () ()
          [(StreamType.GENERAL, some (idle 10 5)),
            (StreamType.DATA1, some (waiting [blockIn]))] false,
          x.gotNewMsgs = true) :=
  ⟨rfl, rfl,
    (ServiceSockets_flag_threaded queueStream () () () ()
      [(StreamType.GENERAL, some (idle 10 5)), (StreamType.DATA1, some (waiting [blockIn]))]
      false 0 0 (by decide) (fun _ => rfl)).1⟩

end BlockPriorityStreamPolicy

end StreamPolicy
